import Mathlib

/-!
Shallow embedding of the Dianoia `DebugLogger` (structured logging utility
with a bounded ring buffer, leveled filtering, named performance timers and
mutable configuration), translated from the TypeScript source
`src/unnamed/part_000`.  Machine time (`Date.now()`) is modelled as a `Nat`
millisecond clock passed explicitly to every operation; the pseudo-random
suffix of generated identifiers is likewise an explicit `String` argument.
Dynamic JavaScript values (`any` payloads) are modelled by the inductive
`JSVal`; JSON text produced by the platform's `JSON.stringify` is modelled
at the level of the JSON value tree (`Json`), since the textual rendering
and `JSON.parse` are inverse platform primitives outside this repository.
-/

mutual
/-- A dynamic JavaScript value, as passed to the logger's `any`-typed
parameters.  Arrays and objects carry their elements through the mutual
spine types `JSList`/`JSFields`.  Host-language object identity is
abstracted to structural equality, matching the spec's description of the
comparisons as shallow identity/equality tests. -/
inductive JSVal where
  | undefined : JSVal
  | null : JSVal
  | bool (b : Bool) : JSVal
  | num (n : Int) : JSVal
  | str (s : String) : JSVal
  | arr (elems : JSList) : JSVal
  | obj (fields : JSFields) : JSVal
  deriving DecidableEq
inductive JSList where
  | nil : JSList
  | cons (head : JSVal) (tail : JSList) : JSList
  deriving DecidableEq
inductive JSFields where
  | nil : JSFields
  | cons (key : String) (val : JSVal) (tail : JSFields) : JSFields
  deriving DecidableEq
end

def JSList.ofList : List JSVal → JSList
  | [] => .nil
  | x :: xs => .cons x (JSList.ofList xs)

def JSList.toList : JSList → List JSVal
  | .nil => []
  | .cons x xs => x :: xs.toList

def JSFields.ofList : List (String × JSVal) → JSFields
  | [] => .nil
  | (k, v) :: fs => .cons k v (JSFields.ofList fs)

def JSFields.toList : JSFields → List (String × JSVal)
  | .nil => []
  | .cons k v fs => (k, v) :: fs.toList

/-- Array literal helper. -/
def jarr (xs : List JSVal) : JSVal := .arr (JSList.ofList xs)

/-- Object literal helper. -/
def jobj (fs : List (String × JSVal)) : JSVal := .obj (JSFields.ofList fs)

/-- A JSON value: the image of `JSON.stringify` (which never emits
`undefined`). -/
inductive Json where
  | null : Json
  | bool (b : Bool) : Json
  | num (n : Int) : Json
  | str (s : String) : Json
  | arr (elems : List Json) : Json
  | obj (fields : List (String × Json)) : Json

/-- JavaScript truthiness of a modelled value (`!v` in the source negates
this).  `NaN` does not occur in the model. -/
def jsFalsy : JSVal → Bool
  | .undefined => true
  | .null => true
  | .bool b => !b
  | .num n => n == 0
  | .str s => s == ""
  | .arr _ => false
  | .obj _ => false

/-- `Object.keys` of a modelled value: own enumerable keys in insertion
order; non-objects contribute no keys of interest here. -/
def jsKeys : JSVal → List String
  | .obj fields => fields.toList.map Prod.fst
  | _ => []

/-- Property read `v[key]`: first binding of the key, `undefined` when the
key is absent or the value is not an object (a JS object cannot hold a
duplicate key, so first-binding lookup is exact). -/
def jsGet (v : JSVal) (key : String) : JSVal :=
  match v with
  | .obj fields =>
    match fields.toList.find? (fun p => p.1 == key) with
    | some p => p.2
    | none => .undefined
  | _ => .undefined

/-- First-occurrence deduplication with an accumulator of already-seen
keys, mirroring iteration over a JS `Set` built from a list (insertion
order, first occurrence kept). -/
def dedupAux : List String → List String → List String
  | [], _ => []
  | x :: xs, seen => if x ∈ seen then dedupAux xs seen else x :: dedupAux xs (x :: seen)

def dedupFirst (xs : List String) : List String := dedupAux xs []

/-- Object spread `\x7b...dst, ...src\x7d` on field lists: keys already
present are overwritten in place, new keys are appended. -/
def objSpread (dst : List (String × JSVal)) : List (String × JSVal) → List (String × JSVal)
  | [] => dst
  | (k, v) :: rest =>
    let dst' := if (dst.find? (fun p => p.1 == k)).isSome
      then dst.map (fun p => if p.1 == k then (k, v) else p)
      else dst ++ [(k, v)]
    objSpread dst' rest

/-- `DebugConfig` from the source: the logger's mutable configuration.
The `level` field is a plain string because the environment-variable
initialization path assigns `process.env.DIANOIA_DEBUG_LEVEL` to it
without validation (`as any` in the source). -/
structure DebugConfig where
  enabled : Bool
  level : String
  includeTimestamps : Bool
  includePerformance : Bool
  includeStackTraces : Bool
  logToConsole : Bool
  logToFile : Bool
  logFilePath : Option String
deriving DecidableEq

/-- `Partial<DebugConfig>`: an update where each field may be absent. -/
structure ConfigPatch where
  enabled : Option Bool := none
  level : Option String := none
  includeTimestamps : Option Bool := none
  includePerformance : Option Bool := none
  includeStackTraces : Option Bool := none
  logToConsole : Option Bool := none
  logToFile : Option Bool := none
  logFilePath : Option String := none
deriving DecidableEq

/-- Object spread `\x7b...current, ...patch\x7d` at the `DebugConfig`
type: present patch fields override, absent ones keep the current value. -/
def mergeConfig (c : DebugConfig) (p : ConfigPatch) : DebugConfig where
  enabled := p.enabled.getD c.enabled
  level := p.level.getD c.level
  includeTimestamps := p.includeTimestamps.getD c.includeTimestamps
  includePerformance := p.includePerformance.getD c.includePerformance
  includeStackTraces := p.includeStackTraces.getD c.includeStackTraces
  logToConsole := p.logToConsole.getD c.logToConsole
  logToFile := p.logToFile.getD c.logToFile
  logFilePath := match p.logFilePath with
    | some s => some s
    | none => c.logFilePath

/-- The constructor defaults: enabled, level `debug`, all include/log
flags true except `logToFile`. -/
def defaultConfig : DebugConfig where
  enabled := true
  level := "debug"
  includeTimestamps := true
  includePerformance := true
  includeStackTraces := true
  logToConsole := true
  logToFile := false
  logFilePath := none

/-- The configuration viewed as a dynamic value (used when a config object
is placed in an entry's `data` payload). -/
def configToJS (c : DebugConfig) : JSVal :=
  jobj ([("enabled", .bool c.enabled), ("level", .str c.level),
    ("includeTimestamps", .bool c.includeTimestamps),
    ("includePerformance", .bool c.includePerformance),
    ("includeStackTraces", .bool c.includeStackTraces),
    ("logToConsole", .bool c.logToConsole), ("logToFile", .bool c.logToFile)]
    ++ (match c.logFilePath with
        | some s => [("logFilePath", JSVal.str s)]
        | none => []))

/-- The `performance` sub-record of a `LogEntry`. -/
structure PerfInfo where
  duration : Option Int := none
  memory : Option Int := none
deriving DecidableEq

/-- The `error` sub-record of a `LogEntry` (declared in the interface; the
present code never populates it, so it is `none` on every reachable
entry). -/
structure ErrInfo where
  name : String
  message : String
  stack : Option String := none
deriving DecidableEq

/-- `LogEntry` from the source.  The ISO-8601 timestamp string is the
image of the millisecond clock under the injective rendering
`isoTimestamp`. -/
structure LogEntry where
  timestamp : String
  level : String
  component : String
  action : String
  message : String
  data : Option JSVal := none
  performance : Option PerfInfo := none
  error : Option ErrInfo := none
  context : Option JSVal := none
deriving DecidableEq

/-- `new Date(now).toISOString()`, modelled as an injective rendering of
the clock value. -/
def isoTimestamp (now : Nat) : String := "iso:" ++ toString now

/-- `Number.prototype.toFixed(2)` on an integral millisecond count. -/
def toFixed2 (n : Int) : String := toString n ++ ".00"

/-- The severity order `['error', 'warn', 'info', 'debug', 'trace']` used
by `shouldLog` (index 0 = most severe). -/
def levels : List String := ["error", "warn", "info", "debug", "trace"]

/-- `Array.prototype.indexOf`: 0-based index of the first occurrence, or
-1 when absent. -/
def jsIndexOf (xs : List String) (s : String) : Int :=
  match xs with
  | [] => -1
  | x :: rest =>
    if x = s then 0
    else
      match jsIndexOf rest s with
      | -1 => -1
      | i => i + 1

/-- Modelled from the spec: "Severity rank: integer position of a log
level in the fixed ordering [error, warn, info, debug, trace]".  Stated
independently of the code's `indexOf` computation so that the two can be
compared. -/
def severityRank : String → Nat
  | "error" => 0
  | "warn" => 1
  | "info" => 2
  | "debug" => 3
  | "trace" => 4
  | _ => 5

/-- One observable console interaction produced by `outputLog`
(`console.error/warn/info/log`, `console.group`, the detail lines, and
`console.groupEnd`). -/
inductive ConsoleEvent where
  | line (method : String) (text : String) : ConsoleEvent
  | groupStart (label : String) : ConsoleEvent
  | logData (label : String) (value : JSVal) : ConsoleEvent
  | logPerf (label : String) (value : PerfInfo) : ConsoleEvent
  | logErr (label : String) (value : ErrInfo) : ConsoleEvent
  | groupEnd : ConsoleEvent
deriving DecidableEq

/-- `PerformanceMetric` from the source. -/
structure PerformanceMetric where
  operation : String
  startTime : Nat
  endTime : Option Nat := none
  duration : Option Int := none
  metadata : Option JSVal := none
deriving DecidableEq

/-- `Map.prototype.get`: first (and in a real `Map`, only) binding. -/
def mapGet (ms : List (String × PerformanceMetric)) (k : String) : Option PerformanceMetric :=
  match ms.find? (fun p => p.1 == k) with
  | some p => some p.2
  | none => none

/-- `Map.prototype.set`: overwrite in place when the key exists, else
append. -/
def mapSet (ms : List (String × PerformanceMetric)) (k : String) (v : PerformanceMetric) :
    List (String × PerformanceMetric) :=
  match ms with
  | [] => [(k, v)]
  | (k', v') :: rest => if k' = k then (k, v) :: rest else (k', v') :: mapSet rest k v

/-- `Map.prototype.delete`: remove the binding of the key, if any. -/
def mapDelete (ms : List (String × PerformanceMetric)) (k : String) :
    List (String × PerformanceMetric) :=
  match ms with
  | [] => []
  | (k', v') :: rest => if k' = k then rest else (k', v') :: mapDelete rest k

/-- The logger's private mutable state: configuration, the
`performanceMetrics` map (insertion-ordered, as a JS `Map`), and the
bounded `logBuffer`. -/
structure LoggerState where
  config : DebugConfig
  performanceMetrics : List (String × PerformanceMetric) := []
  logBuffer : List LogEntry := []
deriving DecidableEq

/-- `maxBufferSize` from the source. -/
def maxBufferSize : Nat := 1000

/-- The buffer step performed at the end of `outputLog`: push, then
`shift()` (drop the oldest entry) when the bound is exceeded. -/
def bufferPush (buf : List LogEntry) (e : LogEntry) : List LogEntry :=
  let b := buf ++ [e]
  if b.length > maxBufferSize then b.tail else b

mutual
/-- `JSON.stringify` (compact form, as used for the `Context:` suffix of a
formatted line), modelled up to string-escape details. -/
def renderJson : Json → String
  | .null => "null"
  | .bool b => if b then "true" else "false"
  | .num n => toString n
  | .str s => "\"" ++ s ++ "\""
  | .arr xs => "[" ++ renderJsonList xs ++ "]"
  | .obj fs => "\x7b" ++ renderJsonFields fs ++ "\x7d"
def renderJsonList : List Json → String
  | [] => ""
  | [x] => renderJson x
  | x :: y :: rest => renderJson x ++ "," ++ renderJsonList (y :: rest)
def renderJsonFields : List (String × Json) → String
  | [] => ""
  | [(k, v)] => "\"" ++ k ++ "\":" ++ renderJson v
  | (k, v) :: g :: rest => "\"" ++ k ++ "\":" ++ renderJson v ++ "," ++ renderJsonFields (g :: rest)
end

mutual
/-- The value tree produced by `JSON.stringify` on a dynamic value:
`undefined` becomes `null` in array positions, and object fields holding
`undefined` are omitted. -/
def encodeJS : JSVal → Json
  | .undefined => .null
  | .null => .null
  | .bool b => .bool b
  | .num n => .num n
  | .str s => .str s
  | .arr xs => .arr (encodeJSList xs)
  | .obj fs => .obj (encodeJSFields fs)
def encodeJSList : JSList → List Json
  | .nil => []
  | .cons x xs => encodeJS x :: encodeJSList xs
def encodeJSFields : JSFields → List (String × Json)
  | .nil => []
  | .cons k v fs =>
    match v with
    | .undefined => encodeJSFields fs
    | _ => (k, encodeJS v) :: encodeJSFields fs
end

mutual
/-- `JSON.parse` of a JSON value tree back into a dynamic value. -/
def decodeJS : Json → JSVal
  | .null => .null
  | .bool b => .bool b
  | .num n => .num n
  | .str s => .str s
  | .arr xs => .arr (decodeJSList xs)
  | .obj fs => .obj (decodeJSFields fs)
def decodeJSList : List Json → JSList
  | [] => .nil
  | x :: xs => .cons (decodeJS x) (decodeJSList xs)
def decodeJSFields : List (String × Json) → JSFields
  | [] => .nil
  | (k, v) :: fs => .cons k (decodeJS v) (decodeJSFields fs)
end

mutual
/-- A dynamic value is JSON-faithful when it contains no `undefined`
(`JSON.stringify` cannot represent `undefined`, so only such values
survive a serialize/parse round trip unchanged). -/
def jsonSafe : JSVal → Bool
  | .undefined => false
  | .null => true
  | .bool _ => true
  | .num _ => true
  | .str _ => true
  | .arr xs => jsonSafeList xs
  | .obj fs => jsonSafeFields fs
def jsonSafeList : JSList → Bool
  | .nil => true
  | .cons x xs => jsonSafe x && jsonSafeList xs
def jsonSafeFields : JSFields → Bool
  | .nil => true
  | .cons _ v fs => jsonSafe v && jsonSafeFields fs
end

namespace DebugLogger

/-- `shouldLog` from the source: false when disabled, otherwise compare
`indexOf` positions in the severity order (an absent level yields -1). -/
def shouldLog (config : DebugConfig) (level : String) : Bool :=
  if !config.enabled then false
  else
    let currentLevelIndex := jsIndexOf levels config.level
    let messageLevelIndex := jsIndexOf levels level
    messageLevelIndex ≤ currentLevelIndex

/-- `formatLogEntry` from the source: optional timestamp prefix, uppercase
level tag, component tag, `action: message`, optional duration suffix
(only when the duration is present and nonzero — JS truthiness), optional
serialized context suffix (only when the context value is truthy). -/
def formatLogEntry (config : DebugConfig) (entry : LogEntry) : String :=
  let s := if config.includeTimestamps then "[" ++ entry.timestamp ++ "] " else ""
  let s := s ++ "[" ++ entry.level.toUpper ++ "] " ++ "[" ++ entry.component ++ "] "
    ++ entry.action ++ ": " ++ entry.message
  let s := s ++ (match entry.performance with
    | some p =>
      match p.duration with
      | some d => if d ≠ 0 then " (" ++ toFixed2 d ++ "ms)" else ""
      | none => ""
    | none => "")
  s ++ (match entry.context with
    | some c => if !(jsFalsy c) then " | Context: " ++ renderJson (encodeJS c) else ""
    | none => "")

/-- `createLogEntry` from the source: stamp the clock, record the given
fields, and attach `performance = \x7b duration: getTime() \x7d` when
performance inclusion is configured. -/
def createLogEntry (config : DebugConfig) (level component action message : String)
    (data context : Option JSVal) (now : Nat) : LogEntry where
  timestamp := isoTimestamp now
  level := level
  component := component
  action := action
  message := message
  data := data
  context := context
  error := none
  performance := if config.includePerformance then some { duration := some (now : Int) } else none

/-- The `console` calls of `outputLog` when console output is enabled:
a leveled main line, then a collapsed detail group when the entry carries
truthy data, an error record, or a performance record. -/
def consoleEvents (config : DebugConfig) (entry : LogEntry) : List ConsoleEvent :=
  if config.logToConsole then
    let method := if entry.level = "error" then "error"
      else if entry.level = "warn" then "warn"
      else if entry.level = "info" then "info"
      else "log"
    let dataTruthy := match entry.data with
      | some v => !(jsFalsy v)
      | none => false
    let ctxTruthy := match entry.context with
      | some v => !(jsFalsy v)
      | none => false
    let details := if dataTruthy || entry.error.isSome || entry.performance.isSome then
        [ConsoleEvent.groupStart "Debug Details"]
        ++ (match entry.data with
            | some v => if !(jsFalsy v) then [ConsoleEvent.logData "Data:" v] else []
            | none => [])
        ++ (match entry.error with
            | some e => [ConsoleEvent.logErr "Error:" e]
            | none => [])
        ++ (match entry.performance with
            | some p => [ConsoleEvent.logPerf "Performance:" p]
            | none => [])
        ++ (if ctxTruthy then
              match entry.context with
              | some v => [ConsoleEvent.logData "Context:" v]
              | none => []
            else [])
        ++ [ConsoleEvent.groupEnd]
      else []
    ConsoleEvent.line method (formatLogEntry config entry) :: details
  else []

/-- `outputLog` from the source: re-check the filter (dropped entries are
neither printed nor buffered), optionally print, then push onto the
buffer and `shift()` past the bound. -/
def outputLog (st : LoggerState) (entry : LogEntry) : LoggerState × List ConsoleEvent :=
  if !(shouldLog st.config entry.level) then (st, [])
  else
    ({ st with logBuffer := bufferPush st.logBuffer entry },
     consoleEvents st.config entry)

/-- The shared body of the five leveled methods (each method passes its
level literal to `createLogEntry` then `outputLog`). -/
def leveledCall (st : LoggerState) (level component action message : String)
    (data context : Option JSVal) (now : Nat) : LoggerState × List ConsoleEvent :=
  outputLog st (createLogEntry st.config level component action message data context now)

def error (st : LoggerState) (component action message : String)
    (data context : Option JSVal) (now : Nat) : LoggerState × List ConsoleEvent :=
  outputLog st (createLogEntry st.config "error" component action message data context now)

def warn (st : LoggerState) (component action message : String)
    (data context : Option JSVal) (now : Nat) : LoggerState × List ConsoleEvent :=
  outputLog st (createLogEntry st.config "warn" component action message data context now)

def info (st : LoggerState) (component action message : String)
    (data context : Option JSVal) (now : Nat) : LoggerState × List ConsoleEvent :=
  outputLog st (createLogEntry st.config "info" component action message data context now)

def debug (st : LoggerState) (component action message : String)
    (data context : Option JSVal) (now : Nat) : LoggerState × List ConsoleEvent :=
  outputLog st (createLogEntry st.config "debug" component action message data context now)

def trace (st : LoggerState) (component action message : String)
    (data context : Option JSVal) (now : Nat) : LoggerState × List ConsoleEvent :=
  outputLog st (createLogEntry st.config "trace" component action message data context now)

/-- `log`: the general convenience method, an alias for `debug`. -/
def log (st : LoggerState) (component action message : String)
    (data context : Option JSVal) (now : Nat) : LoggerState × List ConsoleEvent :=
  debug st component action message data context now

/-- `getStateChanges` from the source: nothing when either state is falsy;
otherwise iterate the deduplicated union of both key sets (a JS `Set`,
insertion order) and record `from`/`to` for each key whose values differ
under the shallow `!==` comparison.  No recursion into nested values. -/
def getStateChanges (oldState newState : JSVal) : List (String × JSVal × JSVal) :=
  if jsFalsy oldState || jsFalsy newState then []
  else
    let allKeys := dedupFirst (jsKeys oldState ++ jsKeys newState)
    allKeys.filterMap (fun key =>
      if jsGet oldState key ≠ jsGet newState key then
        some (key, jsGet oldState key, jsGet newState key)
      else none)

/-- The `changes` record built by `trackStateChange` out of
`getStateChanges`. -/
def changesToJS (changes : List (String × JSVal × JSVal)) : JSVal :=
  jobj (changes.map (fun p => (p.1, jobj [("from", p.2.1), ("to", p.2.2)])))

/-- `trackStateChange` from the source: a `debug`-level entry on component
`state`, action `change`, carrying both states and their shallow diff. -/
def trackStateChange (st : LoggerState) (component action : String)
    (oldState newState : JSVal) (context : Option JSVal) (now : Nat) :
    LoggerState × List ConsoleEvent :=
  debug st "state" "change" (component ++ " state changed via " ++ action)
    (some (jobj [("oldState", oldState), ("newState", newState),
      ("changes", changesToJS (getStateChanges oldState newState))]))
    context now

/-- `startTimer` from the source.  The generated identifier concatenates
the operation name, the clock, and the caller-supplied pseudo-random
suffix (modelling `Math.random().toString(36).substr(2, 9)`). -/
def startTimer (st : LoggerState) (operation : String) (metadata : Option JSVal)
    (now : Nat) (rand : String) : LoggerState × List ConsoleEvent × String :=
  if !st.config.enabled || !st.config.includePerformance then (st, [], "")
  else
    let timerId := operation ++ "_" ++ toString now ++ "_" ++ rand
    let startTime := now
    let metric : PerformanceMetric :=
      { operation := operation, startTime := startTime, metadata := metadata }
    let st := { st with performanceMetrics := mapSet st.performanceMetrics timerId metric }
    let r := trace st "performance" "timer_start" ("Started timer for: " ++ operation)
      (some (jobj [("timerId", .str timerId), ("metadata", metadata.getD .undefined)]))
      none now
    (r.1, r.2, timerId)

/-- `endTimer` from the source: a no-op when disabled, performance is off,
or the identifier is empty; a `warn` entry when the identifier is unknown;
otherwise it stamps the metric's end/duration, emits the `info` completion
entry (formatted duration, operation, metadata, spread of the extra data)
and deletes the metric. -/
def endTimer (st : LoggerState) (timerId : String) (additionalData : Option JSVal)
    (now : Nat) : LoggerState × List ConsoleEvent :=
  if !st.config.enabled || !st.config.includePerformance || timerId = "" then (st, [])
  else
    match mapGet st.performanceMetrics timerId with
    | none => warn st "performance" "timer_end" ("Timer not found: " ++ timerId) none none now
    | some metric =>
      let endTime := now
      let duration : Int := (endTime : Int) - (metric.startTime : Int)
      let metric' := { metric with endTime := some endTime, duration := some duration }
      let st := { st with performanceMetrics := mapSet st.performanceMetrics timerId metric' }
      let baseData := [("duration", JSVal.str (toFixed2 duration ++ "ms")),
        ("operation", JSVal.str metric.operation),
        ("metadata", metric.metadata.getD .undefined)]
      let dataFields := match additionalData with
        | some (.obj fs) => objSpread baseData fs.toList
        | _ => baseData
      let r := info st "performance" "timer_end" ("Completed: " ++ metric.operation)
        (some (jobj dataFields)) none now
      ({ r.1 with performanceMetrics := mapDelete r.1.performanceMetrics timerId }, r.2)

/-- `updateConfig` from the source: shallow-merge the patch over the
current configuration (the new configuration is in force for the `info`
entry that records the change). -/
def updateConfig (st : LoggerState) (newConfig : ConfigPatch) (now : Nat) :
    LoggerState × List ConsoleEvent :=
  let oldConfig := st.config
  let st := { st with config := mergeConfig st.config newConfig }
  info st "system" "config_update" "Debug configuration updated"
    (some (jobj [("oldConfig", configToJS oldConfig), ("newConfig", configToJS st.config)]))
    none now

/-- `getConfig` from the source (`\x7b...this.config\x7d`): in the pure
model the defensive copy coincides with the configuration value itself. -/
def getConfig (st : LoggerState) : DebugConfig := st.config

/-- `getLogs` from the source (`[...this.logBuffer]`): in the pure model
the defensive copy coincides with the buffer value itself. -/
def getLogs (st : LoggerState) : List LogEntry := st.logBuffer

/-- `clearLogs` from the source: empty the buffer, then emit one `info`
entry recording the clear. -/
def clearLogs (st : LoggerState) (now : Nat) : LoggerState × List ConsoleEvent :=
  info { st with logBuffer := [] } "system" "logs_cleared" "Debug logs cleared" none none now

/-- `JSON.stringify` of a `performance` record. -/
def encodePerf (p : PerfInfo) : Json :=
  .obj ((match p.duration with
      | some d => [("duration", Json.num d)]
      | none => [])
    ++ (match p.memory with
      | some m => [("memory", Json.num m)]
      | none => []))

/-- `JSON.stringify` of an `error` record. -/
def encodeErr (e : ErrInfo) : Json :=
  .obj ([("name", Json.str e.name), ("message", Json.str e.message)]
    ++ (match e.stack with
      | some s => [("stack", Json.str s)]
      | none => []))

/-- `JSON.stringify` of one `LogEntry`: the five mandatory string fields
in property order, then the optional `data`/`context`/`performance`/
`error` fields, each omitted when absent. -/
def encodeEntry (e : LogEntry) : Json :=
  .obj ([("timestamp", Json.str e.timestamp), ("level", Json.str e.level),
    ("component", Json.str e.component), ("action", Json.str e.action),
    ("message", Json.str e.message)]
    ++ (match e.data with
      | some v => [("data", encodeJS v)]
      | none => [])
    ++ (match e.context with
      | some v => [("context", encodeJS v)]
      | none => [])
    ++ (match e.performance with
      | some p => [("performance", encodePerf p)]
      | none => [])
    ++ (match e.error with
      | some er => [("error", encodeErr er)]
      | none => []))

/-- `exportLogs` from the source: `JSON.stringify(this.logBuffer, null,
2)`, modelled as the serialized JSON value tree (the indented textual
rendering and its inverse `JSON.parse` are platform primitives). -/
def exportLogs (st : LoggerState) : Json :=
  Json.arr (st.logBuffer.map encodeEntry)

/-- Key lookup in a parsed JSON object. -/
def jLookup (fs : List (String × Json)) (k : String) : Option Json :=
  match fs.find? (fun p => p.1 == k) with
  | some p => some p.2
  | none => none

/-- Parse an optional field: absence is `none`, presence must decode. -/
def decodeOpt {α : Type} (o : Option Json) (f : Json → Option α) : Option (Option α) :=
  match o with
  | none => some none
  | some j => (f j).map some

/-- Parse a serialized `performance` record. -/
def decodePerf (j : Json) : Option PerfInfo :=
  match j with
  | .obj fs =>
    match jLookup fs "duration", jLookup fs "memory" with
    | some (.num d), some (.num m) => some { duration := some d, memory := some m }
    | some (.num d), none => some { duration := some d, memory := none }
    | none, some (.num m) => some { duration := none, memory := some m }
    | none, none => some { duration := none, memory := none }
    | _, _ => none
  | _ => none

/-- Parse a serialized `error` record. -/
def decodeErr (j : Json) : Option ErrInfo :=
  match j with
  | .obj fs =>
    match jLookup fs "name", jLookup fs "message", jLookup fs "stack" with
    | some (.str n), some (.str m), some (.str s) => some { name := n, message := m, stack := some s }
    | some (.str n), some (.str m), none => some { name := n, message := m, stack := none }
    | _, _, _ => none
  | _ => none

/-- Parse one serialized `LogEntry` back from its JSON object. -/
def decodeEntry (j : Json) : Option LogEntry :=
  match j with
  | .obj fs =>
    match jLookup fs "timestamp", jLookup fs "level", jLookup fs "component",
      jLookup fs "action", jLookup fs "message" with
    | some (.str ts), some (.str lv), some (.str co), some (.str ac), some (.str me) =>
      match decodeOpt (jLookup fs "performance") decodePerf,
        decodeOpt (jLookup fs "error") decodeErr with
      | some perf, some err =>
        let e : LogEntry :=
          { timestamp := ts, level := lv, component := co, action := ac, message := me,
            data := (jLookup fs "data").map decodeJS,
            performance := perf, error := err,
            context := (jLookup fs "context").map decodeJS }
        some e
      | _, _ => none
    | _, _, _, _, _ => none
  | _ => none

/-- Parse a list of serialized entries, failing when any element fails. -/
def decodeEntryList : List Json → Option (List LogEntry)
  | [] => some []
  | j :: js =>
    match decodeEntry j, decodeEntryList js with
    | some e, some es => some (e :: es)
    | _, _ => none

/-- `JSON.parse` of an exported log dump: an array of entries. -/
def decodeLogs (j : Json) : Option (List LogEntry) :=
  match j with
  | .arr xs => decodeEntryList xs
  | _ => none

/-- The environment variables consulted by `initializeDebugMode` on the
Node.js path. -/
structure EnvVars where
  dianoiaDebug : Option String := none
  dianoiaDebugLevel : Option String := none

/-- The `localStorage` keys consulted by `initializeDebugMode` on the
browser path (`none` for the whole record models an absent storage). -/
structure StorageVals where
  dianoiaDebugEnabled : Option String := none
  dianoiaDebugLevel : Option String := none

/-- `initializeDebugMode` from the source.  On the Node path
`DIANOIA_DEBUG === 'false'` disables, otherwise a *truthy*
`DIANOIA_DEBUG_LEVEL` (`else if (process.env.DIANOIA_DEBUG_LEVEL)`: a
present, non-empty string — the empty string is falsy and ignored) is
assigned without further validation; the storage path toggles `enabled`
on the literal strings and assigns `level` only after validating
membership in the five levels; finally, when enabled, one synthetic
`debug_init` entry is logged through `log` (the `debug` alias). -/
def initializeDebugMode (isNode isBrowser : Bool) (env : EnvVars)
    (storage : Option StorageVals) (st : LoggerState) (now : Nat) :
    LoggerState × List ConsoleEvent :=
  let cfg := st.config
  let cfg := if isNode then
      if env.dianoiaDebug = some "false" then { cfg with enabled := false }
      else match env.dianoiaDebugLevel with
        | some s => if s = "" then cfg else { cfg with level := s }
        | none => cfg
    else cfg
  let cfg := match storage with
    | some sv =>
      let cfg := if sv.dianoiaDebugEnabled = some "false" then { cfg with enabled := false }
        else if sv.dianoiaDebugEnabled = some "true" then { cfg with enabled := true }
        else cfg
      match sv.dianoiaDebugLevel with
      | some s => if s ∈ levels then { cfg with level := s } else cfg
      | none => cfg
    | none => cfg
  let st := { st with config := cfg }
  if cfg.enabled then
    log st "system" "debug_init" "Debug system initialized"
      (some (jobj [("config", configToJS cfg),
        ("environment", .str (if isBrowser then "browser" else "node")),
        ("timestamp", .str (isoTimestamp now))]))
      none now
  else (st, [])

/-- The constructor: merge the partial configuration over the defaults,
start with empty buffer and timer map, then probe the environment via
`initializeDebugMode`. -/
def new (config : ConfigPatch) (isNode isBrowser : Bool) (env : EnvVars)
    (storage : Option StorageVals) (now : Nat) : LoggerState × List ConsoleEvent :=
  initializeDebugMode isNode isBrowser env storage
    { config := mergeConfig defaultConfig config } now

end DebugLogger

/-- An entry is JSON-faithful when its dynamic payloads contain no
`undefined` (the spec's data model calls payloads "serialization-ready";
`undefined` is the one dynamic value `JSON.stringify` cannot represent). -/
def entrySafe (e : LogEntry) : Bool :=
  (match e.data with
    | some v => jsonSafe v
    | none => true)
  && (match e.context with
    | some v => jsonSafe v
    | none => true)

/-- A logger with the constructor-default configuration and empty state
(concrete evaluation vehicle). -/
def wDefaultState : LoggerState := { config := defaultConfig }

/-- A logger configured at level `error` holding one retained entry
(concrete evaluation vehicle). -/
def wErrorLevelState : LoggerState :=
  { config := { defaultConfig with level := "error" },
    logBuffer := [DebugLogger.createLogEntry defaultConfig "error" "boot" "start" "started" none none 1] }

/-- A sample retained entry (concrete evaluation vehicle). -/
def wEntry : LogEntry := DebugLogger.createLogEntry defaultConfig "info" "comp" "act" "msg" none none 2

/-- A logger whose buffer is exactly at capacity (concrete evaluation
vehicle). -/
def wFullState : LoggerState :=
  { config := defaultConfig, logBuffer := List.replicate maxBufferSize wEntry }

/-- A logger holding one `trackStateChange` entry with a structured
payload (concrete evaluation vehicle). -/
def wExportState : LoggerState :=
  (DebugLogger.trackStateChange wDefaultState "ui" "set"
    (jobj [("a", .num 1), ("b", .str "y")])
    (jobj [("a", .num 2), ("b", .str "x")]) none 3).1

/-- A logger holding one `trackStateChange` entry whose diff reports a
key added on the new side, so the payload carries a `from: undefined`
value that `JSON.stringify` cannot represent (concrete evaluation
vehicle). -/
def wBadExportState : LoggerState :=
  (DebugLogger.trackStateChange wDefaultState "ui" "set"
    (jobj [("a", .num 1)])
    (jobj [("a", .num 1), ("b", .num 4)]) none 3).1

/-- A disabled logger (concrete evaluation vehicle). -/
def wDisabledState : LoggerState := { config := { defaultConfig with enabled := false } }

theorem outputLog_eq (st : LoggerState) (e : LogEntry) :
    DebugLogger.outputLog st e
      = if DebugLogger.shouldLog st.config e.level
        then ({ st with logBuffer := bufferPush st.logBuffer e },
          DebugLogger.consoleEvents st.config e)
        else (st, []) := by
  rw [DebugLogger.outputLog]
  cases h : DebugLogger.shouldLog st.config e.level <;> simp [h]

theorem bufferPush_length_le (buf : List LogEntry) (e : LogEntry)
    (h : buf.length ≤ maxBufferSize) : (bufferPush buf e).length ≤ maxBufferSize := by
  rw [bufferPush]
  split
  · simp
    omega
  · next h' =>
    simp at h'
    simpa using h'

theorem bufferPush_at_capacity (buf : List LogEntry) (e : LogEntry)
    (h : buf.length = maxBufferSize) : bufferPush buf e = buf.drop 1 ++ [e] := by
  cases buf with
  | nil => simp [maxBufferSize] at h
  | cons x xs =>
    rw [bufferPush]
    split
    · simp
    · next h' =>
      simp [maxBufferSize] at h' ⊢
      simp [maxBufferSize] at h
      omega

theorem jsIndexOf_of_mem (l : String) (h : l ∈ levels) :
    jsIndexOf levels l = (severityRank l : Int) := by
  fin_cases h <;> rfl

theorem jsIndexOf_of_not_mem (s : String) (h : s ∉ levels) :
    jsIndexOf levels s = -1 := by
  simp [levels] at h
  obtain ⟨h1, h2, h3, h4, h5⟩ := h
  simp [jsIndexOf, levels, Ne.symm h1, Ne.symm h2, Ne.symm h3, Ne.symm h4, Ne.symm h5]

theorem shouldLog_eq_rank_test (cfg : DebugConfig) (lvl : String)
    (hcfg : cfg.level ∈ levels) (hlvl : lvl ∈ levels) :
    DebugLogger.shouldLog cfg lvl
      = (cfg.enabled && decide (severityRank lvl ≤ severityRank cfg.level)) := by
  rw [DebugLogger.shouldLog]
  cases he : cfg.enabled
  · simp
  · simp [jsIndexOf_of_mem _ hcfg, jsIndexOf_of_mem _ hlvl]


theorem shouldLog_true_iff (cfg : DebugConfig) (lvl : String)
    (hcfg : cfg.level ∈ levels) (hlvl : lvl ∈ levels) :
    DebugLogger.shouldLog cfg lvl = true
      ↔ (cfg.enabled = true ∧ severityRank lvl ≤ severityRank cfg.level) := by
  rw [shouldLog_eq_rank_test cfg lvl hcfg hlvl]
  simp

theorem leveledCall_buffer (st : LoggerState) (lvl comp action msg : String)
    (data ctx : Option JSVal) (now : Nat)
    (hcfg : st.config.level ∈ levels) (hlvl : lvl ∈ levels) :
    (DebugLogger.leveledCall st lvl comp action msg data ctx now).1.logBuffer
      = if st.config.enabled = true ∧ severityRank lvl ≤ severityRank st.config.level
        then bufferPush st.logBuffer
          (DebugLogger.createLogEntry st.config lvl comp action msg data ctx now)
        else st.logBuffer := by
  rw [DebugLogger.leveledCall, outputLog_eq]
  rw [show (DebugLogger.createLogEntry st.config lvl comp action msg data ctx now).level
    = lvl from rfl]
  by_cases hc : st.config.enabled = true ∧ severityRank lvl ≤ severityRank st.config.level
  · rw [if_pos ((shouldLog_true_iff st.config lvl hcfg hlvl).mpr hc), if_pos hc]
  · rw [if_neg (fun hx => hc ((shouldLog_true_iff st.config lvl hcfg hlvl).mp hx)), if_neg hc]

/-- C1: for every configuration whose level is one of the five levels and
every leveled call, the entry is appended to the buffer (via the bounded
push) iff the logger is enabled and the entry's severity rank is at most
the configured level's rank in `[error, warn, info, debug, trace]`; an
entry failing the filter leaves the buffer unchanged; the buffer outcome
is independent of `logToConsole`; and each of the five leveled methods is
exactly the shared body at its level literal. -/
theorem level_filter_retention (st : LoggerState) (lvl comp action msg : String)
    (data ctx : Option JSVal) (now : Nat) (b : Bool)
    (hcfg : st.config.level ∈ levels) (hlvl : lvl ∈ levels) :
    ((DebugLogger.leveledCall st lvl comp action msg data ctx now).1.logBuffer
      = if st.config.enabled = true ∧ severityRank lvl ≤ severityRank st.config.level
        then bufferPush st.logBuffer
          (DebugLogger.createLogEntry st.config lvl comp action msg data ctx now)
        else st.logBuffer)
    ∧ ((DebugLogger.leveledCall { st with config := { st.config with logToConsole := b } }
          lvl comp action msg data ctx now).1.logBuffer
        = (DebugLogger.leveledCall st lvl comp action msg data ctx now).1.logBuffer)
    ∧ DebugLogger.error st comp action msg data ctx now
        = DebugLogger.leveledCall st "error" comp action msg data ctx now
    ∧ DebugLogger.warn st comp action msg data ctx now
        = DebugLogger.leveledCall st "warn" comp action msg data ctx now
    ∧ DebugLogger.info st comp action msg data ctx now
        = DebugLogger.leveledCall st "info" comp action msg data ctx now
    ∧ DebugLogger.debug st comp action msg data ctx now
        = DebugLogger.leveledCall st "debug" comp action msg data ctx now
    ∧ DebugLogger.trace st comp action msg data ctx now
        = DebugLogger.leveledCall st "trace" comp action msg data ctx now := by
  refine ⟨leveledCall_buffer st lvl comp action msg data ctx now hcfg hlvl, ?_, rfl, rfl, rfl,
    rfl, rfl⟩
  rw [leveledCall_buffer st lvl comp action msg data ctx now hcfg hlvl]
  rw [leveledCall_buffer { st with config := { st.config with logToConsole := b } }
    lvl comp action msg data ctx now hcfg hlvl]
  rfl

/-- Witness for C1 at a concrete logger configured at level `error` and a
`warn` call (which the filter rejects). -/
theorem level_filter_retention_witness :
    wErrorLevelState.config.level ∈ levels ∧ "warn" ∈ levels ∧
    (((DebugLogger.leveledCall wErrorLevelState "warn" "c" "a" "m" none none 7).1.logBuffer
      = if wErrorLevelState.config.enabled = true
          ∧ severityRank "warn" ≤ severityRank wErrorLevelState.config.level
        then bufferPush wErrorLevelState.logBuffer
          (DebugLogger.createLogEntry wErrorLevelState.config "warn" "c" "a" "m" none none 7)
        else wErrorLevelState.logBuffer)
    ∧ ((DebugLogger.leveledCall
          { wErrorLevelState with config := { wErrorLevelState.config with logToConsole := true } }
          "warn" "c" "a" "m" none none 7).1.logBuffer
        = (DebugLogger.leveledCall wErrorLevelState "warn" "c" "a" "m" none none 7).1.logBuffer)
    ∧ DebugLogger.error wErrorLevelState "c" "a" "m" none none 7
        = DebugLogger.leveledCall wErrorLevelState "error" "c" "a" "m" none none 7
    ∧ DebugLogger.warn wErrorLevelState "c" "a" "m" none none 7
        = DebugLogger.leveledCall wErrorLevelState "warn" "c" "a" "m" none none 7
    ∧ DebugLogger.info wErrorLevelState "c" "a" "m" none none 7
        = DebugLogger.leveledCall wErrorLevelState "info" "c" "a" "m" none none 7
    ∧ DebugLogger.debug wErrorLevelState "c" "a" "m" none none 7
        = DebugLogger.leveledCall wErrorLevelState "debug" "c" "a" "m" none none 7
    ∧ DebugLogger.trace wErrorLevelState "c" "a" "m" none none 7
        = DebugLogger.leveledCall wErrorLevelState "trace" "c" "a" "m" none none 7) :=
  ⟨by decide, by decide,
    level_filter_retention wErrorLevelState "warn" "c" "a" "m" none none 7 true
      (by decide) (by decide)⟩

theorem outputLog_buffer_le (st : LoggerState) (e : LogEntry)
    (h : st.logBuffer.length ≤ maxBufferSize) :
    (DebugLogger.outputLog st e).1.logBuffer.length ≤ maxBufferSize := by
  rw [outputLog_eq]
  split
  · exact bufferPush_length_le _ _ h
  · exact h

theorem startTimer_buffer_le (st : LoggerState) (op : String) (md : Option JSVal)
    (now : Nat) (rand : String) (h : st.logBuffer.length ≤ maxBufferSize) :
    (DebugLogger.startTimer st op md now rand).1.logBuffer.length ≤ maxBufferSize := by
  rw [DebugLogger.startTimer]
  split
  · exact h
  · exact outputLog_buffer_le _ _ h

theorem endTimer_buffer_le (st : LoggerState) (timerId : String) (extra : Option JSVal)
    (now : Nat) (h : st.logBuffer.length ≤ maxBufferSize) :
    (DebugLogger.endTimer st timerId extra now).1.logBuffer.length ≤ maxBufferSize := by
  rw [DebugLogger.endTimer]
  split
  · exact h
  · split
    · exact outputLog_buffer_le _ _ h
    · exact outputLog_buffer_le _ _ h

/-- C2: every buffer-touching public operation keeps the buffer at or
below `maxBufferSize` (1000) entries, and an accepted entry arriving with
the buffer exactly at capacity evicts exactly the oldest entry — the new
buffer is the old one minus its head, with the new entry appended, so the
relative order of survivors is unchanged (pure FIFO). -/
theorem buffer_bound_fifo (st stFull : LoggerState) (lvl comp action msg : String)
    (data ctx : Option JSVal) (now : Nat) (op rand timerId : String)
    (md extra : Option JSVal) (oldS newS : JSVal) (p : ConfigPatch)
    (hle : st.logBuffer.length ≤ maxBufferSize)
    (hfull : stFull.logBuffer.length = maxBufferSize)
    (hacc : DebugLogger.shouldLog stFull.config lvl = true) :
    (DebugLogger.leveledCall st lvl comp action msg data ctx now).1.logBuffer.length
        ≤ maxBufferSize
    ∧ (DebugLogger.startTimer st op md now rand).1.logBuffer.length ≤ maxBufferSize
    ∧ (DebugLogger.endTimer st timerId extra now).1.logBuffer.length ≤ maxBufferSize
    ∧ (DebugLogger.trackStateChange st comp action oldS newS ctx now).1.logBuffer.length
        ≤ maxBufferSize
    ∧ (DebugLogger.updateConfig st p now).1.logBuffer.length ≤ maxBufferSize
    ∧ (DebugLogger.clearLogs st now).1.logBuffer.length ≤ maxBufferSize
    ∧ (DebugLogger.leveledCall stFull lvl comp action msg data ctx now).1.logBuffer
        = stFull.logBuffer.drop 1
          ++ [DebugLogger.createLogEntry stFull.config lvl comp action msg data ctx now] := by
  refine ⟨outputLog_buffer_le _ _ hle, startTimer_buffer_le _ _ _ _ _ hle,
    endTimer_buffer_le _ _ _ _ hle, outputLog_buffer_le _ _ hle,
    outputLog_buffer_le _ _ hle, outputLog_buffer_le _ _ (by simp), ?_⟩
  rw [DebugLogger.leveledCall, outputLog_eq]
  rw [show (DebugLogger.createLogEntry stFull.config lvl comp action msg data ctx now).level
    = lvl from rfl]
  rw [if_pos hacc]
  exact bufferPush_at_capacity _ _ hfull

/-- Witness for C2: a logger with an empty buffer for the bound
conjuncts, and one whose buffer holds exactly 1000 entries for the FIFO
eviction conjunct, receiving an accepted `error` entry. -/
theorem buffer_bound_fifo_witness :
    wDefaultState.logBuffer.length ≤ maxBufferSize
    ∧ wFullState.logBuffer.length = maxBufferSize
    ∧ DebugLogger.shouldLog wFullState.config "error" = true
    ∧ ((DebugLogger.leveledCall wDefaultState "error" "c" "a" "m" none none 4).1.logBuffer.length
        ≤ maxBufferSize
      ∧ (DebugLogger.startTimer wDefaultState "op" none 4 "r").1.logBuffer.length ≤ maxBufferSize
      ∧ (DebugLogger.endTimer wDefaultState "tid" none 4).1.logBuffer.length ≤ maxBufferSize
      ∧ (DebugLogger.trackStateChange wDefaultState "c" "a" JSVal.null JSVal.null none
          4).1.logBuffer.length ≤ maxBufferSize
      ∧ (DebugLogger.updateConfig wDefaultState {} 4).1.logBuffer.length ≤ maxBufferSize
      ∧ (DebugLogger.clearLogs wDefaultState 4).1.logBuffer.length ≤ maxBufferSize
      ∧ (DebugLogger.leveledCall wFullState "error" "c" "a" "m" none none 4).1.logBuffer
          = wFullState.logBuffer.drop 1
            ++ [DebugLogger.createLogEntry wFullState.config "error" "c" "a" "m" none none 4]) :=
  ⟨by decide,
    by rw [show wFullState.logBuffer = List.replicate maxBufferSize wEntry from rfl,
      List.length_replicate],
    by decide,
    buffer_bound_fifo wDefaultState wFullState "error" "c" "a" "m" none none 4 "op" "r" "tid"
      none none JSVal.null JSVal.null {} (by decide)
      (by rw [show wFullState.logBuffer = List.replicate maxBufferSize wEntry from rfl,
        List.length_replicate])
      (by decide)⟩

theorem shouldLog_disabled (cfg : DebugConfig) (h : cfg.enabled = false) (l : String) :
    DebugLogger.shouldLog cfg l = false := by
  rw [DebugLogger.shouldLog]
  simp [h]

/-- C7: with `enabled = false`, every leveled call (including the `log`
alias) and both timer calls leave the logger state untouched and produce
no console output, and `startTimer` returns the empty identifier. -/
theorem disabled_noop (st : LoggerState) (h : st.config.enabled = false)
    (comp action msg : String) (data ctx : Option JSVal) (now : Nat)
    (op rand timerId : String) (md extra : Option JSVal) :
    DebugLogger.error st comp action msg data ctx now = (st, [])
    ∧ DebugLogger.warn st comp action msg data ctx now = (st, [])
    ∧ DebugLogger.info st comp action msg data ctx now = (st, [])
    ∧ DebugLogger.debug st comp action msg data ctx now = (st, [])
    ∧ DebugLogger.trace st comp action msg data ctx now = (st, [])
    ∧ DebugLogger.log st comp action msg data ctx now = (st, [])
    ∧ DebugLogger.startTimer st op md now rand = (st, [], "")
    ∧ DebugLogger.endTimer st timerId extra now = (st, []) := by
  refine ⟨?_, ?_, ?_, ?_, ?_, ?_, ?_, ?_⟩
  · simp [DebugLogger.error, outputLog_eq, shouldLog_disabled _ h]
  · simp [DebugLogger.warn, outputLog_eq, shouldLog_disabled _ h]
  · simp [DebugLogger.info, outputLog_eq, shouldLog_disabled _ h]
  · simp [DebugLogger.debug, outputLog_eq, shouldLog_disabled _ h]
  · simp [DebugLogger.trace, outputLog_eq, shouldLog_disabled _ h]
  · simp [DebugLogger.log, DebugLogger.debug, outputLog_eq, shouldLog_disabled _ h]
  · rw [DebugLogger.startTimer, if_pos]
    simp [h]
  · rw [DebugLogger.endTimer, if_pos]
    simp [h]

/-- Witness for C7 at a concretely disabled logger. -/
theorem disabled_noop_witness :
    wDisabledState.config.enabled = false
    ∧ (DebugLogger.error wDisabledState "c" "a" "m" none none 3 = (wDisabledState, [])
      ∧ DebugLogger.warn wDisabledState "c" "a" "m" none none 3 = (wDisabledState, [])
      ∧ DebugLogger.info wDisabledState "c" "a" "m" none none 3 = (wDisabledState, [])
      ∧ DebugLogger.debug wDisabledState "c" "a" "m" none none 3 = (wDisabledState, [])
      ∧ DebugLogger.trace wDisabledState "c" "a" "m" none none 3 = (wDisabledState, [])
      ∧ DebugLogger.log wDisabledState "c" "a" "m" none none 3 = (wDisabledState, [])
      ∧ DebugLogger.startTimer wDisabledState "op" none 3 "r" = (wDisabledState, [], "")
      ∧ DebugLogger.endTimer wDisabledState "tid" none 3 = (wDisabledState, [])) :=
  ⟨by decide,
    disabled_noop wDisabledState (by decide) "c" "a" "m" none none 3 "op" "r" "tid" none none⟩

/-- Counterexample to C5 as stated: a logger that is enabled (at level
`error`) and holds an entry, yet is left with an empty buffer by
`clearLogs`, because the `logs_cleared` entry is `info`-level and the
configured level filters it out. -/
theorem clearLogs_nonempty_cex :
    wErrorLevelState.config.enabled = true
    ∧ wErrorLevelState.logBuffer ≠ []
    ∧ (DebugLogger.clearLogs wErrorLevelState 5).1.logBuffer = [] := by
  decide

/-- C5 (amended): `clearLogs` empties the buffer and then submits one
`info`-level entry noting the clear; immediately afterwards the buffer
holds exactly that entry when the configuration admits `info`-level
entries, and is empty otherwise (in particular when the logger is
disabled, but also at configured level `error` or `warn`). -/
theorem clearLogs_buffer_contents (st : LoggerState) (now : Nat) :
    (DebugLogger.clearLogs st now).1.logBuffer
      = if DebugLogger.shouldLog st.config "info"
        then [DebugLogger.createLogEntry st.config "info" "system" "logs_cleared"
          "Debug logs cleared" none none now]
        else [] := by
  rw [DebugLogger.clearLogs, DebugLogger.info, outputLog_eq]
  rw [show (DebugLogger.createLogEntry st.config "info" "system" "logs_cleared"
    "Debug logs cleared" none none now).level = "info" from rfl]
  cases h : DebugLogger.shouldLog st.config "info" <;>
    simp [h, bufferPush, maxBufferSize]

theorem outputLog_config (st : LoggerState) (e : LogEntry) :
    (DebugLogger.outputLog st e).1.config = st.config := by
  rw [outputLog_eq]
  split <;> rfl

theorem outputLog_metrics (st : LoggerState) (e : LogEntry) :
    (DebugLogger.outputLog st e).1.performanceMetrics = st.performanceMetrics := by
  rw [outputLog_eq]
  split <;> rfl

theorem updateConfig_config (st : LoggerState) (p : ConfigPatch) (now : Nat) :
    (DebugLogger.updateConfig st p now).1.config = mergeConfig st.config p := by
  rw [DebugLogger.updateConfig]
  exact outputLog_config _ _

theorem updateConfig_buffer (st : LoggerState) (p : ConfigPatch) (now : Nat) :
    (DebugLogger.updateConfig st p now).1.logBuffer
      = if DebugLogger.shouldLog (mergeConfig st.config p) "info"
        then bufferPush st.logBuffer
          (DebugLogger.createLogEntry (mergeConfig st.config p) "info" "system"
            "config_update" "Debug configuration updated"
            (some (jobj [("oldConfig", configToJS st.config),
              ("newConfig", configToJS (mergeConfig st.config p))])) none now)
        else st.logBuffer := by
  rw [DebugLogger.updateConfig, DebugLogger.info, outputLog_eq]
  rw [show (DebugLogger.createLogEntry (mergeConfig st.config p) "info" "system"
    "config_update" "Debug configuration updated"
    (some (jobj [("oldConfig", configToJS st.config),
      ("newConfig", configToJS (mergeConfig st.config p))])) none now).level
    = "info" from rfl]
  cases h : DebugLogger.shouldLog (mergeConfig st.config p) "info" <;> simp [h]

/-- Counterexample to C4 as stated: on an enabled logger at the default
configuration, `updateConfig(\x7blevel:'error'\x7d)` leaves the buffer
unchanged — no info-level entry recording the old and new configuration
is retained, because the merged configuration (the claim's own example)
filters `info`-level entries out. -/
theorem updateConfig_info_entry_cex :
    wDefaultState.config.enabled = true
    ∧ (DebugLogger.updateConfig wDefaultState { level := some "error" } 9).1.logBuffer
        = wDefaultState.logBuffer := by
  decide

/-- C4 (amended): `updateConfig` shallow-merges the patch over the current
configuration; the `info`-level entry recording old and new configuration
is appended iff the merged configuration admits `info`-level entries; the
merged configuration is in force immediately — after
`updateConfig(\x7blevel:'error'\x7d)` every subsequent
`warn`/`info`/`debug`/`trace` call leaves the buffer unchanged while an
`error` call still appends — and `getConfig` returns the merged
configuration right after the call. -/
theorem updateConfig_merge_effects (st : LoggerState) (p : ConfigPatch)
    (now n2 : Nat) (comp action msg : String) (d ctx : Option JSVal)
    (henabled : st.config.enabled = true) :
    (DebugLogger.updateConfig st p now).1.config = mergeConfig st.config p
    ∧ DebugLogger.getConfig (DebugLogger.updateConfig st p now).1 = mergeConfig st.config p
    ∧ (DebugLogger.updateConfig st p now).1.logBuffer
        = (if DebugLogger.shouldLog (mergeConfig st.config p) "info"
           then bufferPush st.logBuffer
             (DebugLogger.createLogEntry (mergeConfig st.config p) "info" "system"
               "config_update" "Debug configuration updated"
               (some (jobj [("oldConfig", configToJS st.config),
                 ("newConfig", configToJS (mergeConfig st.config p))])) none now)
           else st.logBuffer)
    ∧ (∀ lvl, lvl ∈ (["warn", "info", "debug", "trace"] : List String) →
        (DebugLogger.leveledCall (DebugLogger.updateConfig st { level := some "error" } now).1
          lvl comp action msg d ctx n2).1.logBuffer
          = (DebugLogger.updateConfig st { level := some "error" } now).1.logBuffer)
    ∧ (DebugLogger.leveledCall (DebugLogger.updateConfig st { level := some "error" } now).1
        "error" comp action msg d ctx n2).1.logBuffer
        = bufferPush (DebugLogger.updateConfig st { level := some "error" } now).1.logBuffer
          (DebugLogger.createLogEntry
            (DebugLogger.updateConfig st { level := some "error" } now).1.config
            "error" comp action msg d ctx n2) := by
  have hc : (DebugLogger.updateConfig st { level := some "error" } now).1.config
      = { st.config with level := "error" } :=
    updateConfig_config st { level := some "error" } now
  refine ⟨updateConfig_config st p now, updateConfig_config st p now,
    updateConfig_buffer st p now, ?_, ?_⟩
  · intro lvl hlvl
    have hsl : DebugLogger.shouldLog
        (DebugLogger.updateConfig st { level := some "error" } now).1.config lvl = false := by
      rw [hc, DebugLogger.shouldLog]
      fin_cases hlvl <;> simp [henabled, jsIndexOf, levels]
    rw [DebugLogger.leveledCall, outputLog_eq, if_neg]
    intro hx
    rw [show (DebugLogger.createLogEntry
      (DebugLogger.updateConfig st { level := some "error" } now).1.config lvl comp action msg
      d ctx n2).level = lvl from rfl] at hx
    exact absurd hx (by simp [hsl])
  · have hsl : DebugLogger.shouldLog
        (DebugLogger.updateConfig st { level := some "error" } now).1.config "error" = true := by
      rw [hc, DebugLogger.shouldLog]
      simp [henabled, jsIndexOf, levels]
    rw [DebugLogger.leveledCall, outputLog_eq, if_pos]
    rw [show (DebugLogger.createLogEntry
      (DebugLogger.updateConfig st { level := some "error" } now).1.config "error" comp action
      msg d ctx n2).level = "error" from rfl]
    exact hsl

/-- Witness for C4 (amended) at the default-config logger and the patch
`\x7bincludeTimestamps: false\x7d`. -/
theorem updateConfig_merge_effects_witness :
    wDefaultState.config.enabled = true
    ∧ ((DebugLogger.updateConfig wDefaultState { includeTimestamps := some false } 9).1.config
        = mergeConfig wDefaultState.config { includeTimestamps := some false }
      ∧ DebugLogger.getConfig
          (DebugLogger.updateConfig wDefaultState { includeTimestamps := some false } 9).1
          = mergeConfig wDefaultState.config { includeTimestamps := some false }
      ∧ (DebugLogger.updateConfig wDefaultState { includeTimestamps := some false } 9).1.logBuffer
          = (if DebugLogger.shouldLog
                (mergeConfig wDefaultState.config { includeTimestamps := some false }) "info"
             then bufferPush wDefaultState.logBuffer
               (DebugLogger.createLogEntry
                 (mergeConfig wDefaultState.config { includeTimestamps := some false }) "info"
                 "system" "config_update" "Debug configuration updated"
                 (some (jobj [("oldConfig", configToJS wDefaultState.config),
                   ("newConfig", configToJS
                     (mergeConfig wDefaultState.config { includeTimestamps := some false }))]))
                 none 9)
             else wDefaultState.logBuffer)
      ∧ (∀ lvl, lvl ∈ (["warn", "info", "debug", "trace"] : List String) →
          (DebugLogger.leveledCall
            (DebugLogger.updateConfig wDefaultState { level := some "error" } 9).1
            lvl "c" "a" "m" none none 10).1.logBuffer
            = (DebugLogger.updateConfig wDefaultState { level := some "error" } 9).1.logBuffer)
      ∧ (DebugLogger.leveledCall
          (DebugLogger.updateConfig wDefaultState { level := some "error" } 9).1
          "error" "c" "a" "m" none none 10).1.logBuffer
          = bufferPush
            (DebugLogger.updateConfig wDefaultState { level := some "error" } 9).1.logBuffer
            (DebugLogger.createLogEntry
              (DebugLogger.updateConfig wDefaultState { level := some "error" } 9).1.config
              "error" "c" "a" "m" none none 10)) :=
  ⟨by decide,
    updateConfig_merge_effects wDefaultState { includeTimestamps := some false } 9 10 "c" "a"
      "m" none none (by decide)⟩

theorem mem_dedupAux (xs : List String) (seen : List String) (x : String) :
    x ∈ dedupAux xs seen ↔ (x ∈ xs ∧ x ∉ seen) := by
  induction xs generalizing seen with
  | nil => simp [dedupAux]
  | cons y ys ih =>
    rw [dedupAux]
    split
    · next hy =>
      rw [ih]
      simp only [List.mem_cons]
      constructor
      · rintro ⟨hx, hs⟩
        exact ⟨Or.inr hx, hs⟩
      · rintro ⟨hx | hx, hs⟩
        · exact absurd (hx ▸ hy) hs
        · exact ⟨hx, hs⟩
    · next hy =>
      simp only [List.mem_cons, ih, List.mem_cons, not_or]
      constructor
      · rintro (rfl | ⟨hx, hne, hs⟩)
        · exact ⟨Or.inl rfl, hy⟩
        · exact ⟨Or.inr hx, hs⟩
      · rintro ⟨rfl | hx, hs⟩
        · exact Or.inl rfl
        · by_cases hxy : x = y
          · exact Or.inl hxy
          · exact Or.inr ⟨hx, hxy, hs⟩

theorem mem_dedupFirst (xs : List String) (x : String) :
    x ∈ dedupFirst xs ↔ x ∈ xs := by
  rw [dedupFirst, mem_dedupAux]
  simp

theorem nodup_dedupAux (xs : List String) (seen : List String) :
    (dedupAux xs seen).Nodup := by
  induction xs generalizing seen with
  | nil => simp [dedupAux]
  | cons y ys ih =>
    rw [dedupAux]
    split
    · exact ih seen
    · refine List.Nodup.cons ?_ (ih (y :: seen))
      intro hy
      rw [mem_dedupAux] at hy
      exact hy.2 (List.mem_cons_self _ _)

theorem nodup_dedupFirst (xs : List String) : (dedupFirst xs).Nodup :=
  nodup_dedupAux xs []

theorem map_fst_filterMap_keylike {α : Type} (f : String → Option (String × α))
    (hf : ∀ a p, f a = some p → p.1 = a) (l : List String) (hl : l.Nodup) :
    ((l.filterMap f).map Prod.fst).Nodup
      ∧ ∀ x ∈ (l.filterMap f).map Prod.fst, x ∈ l := by
  induction l with
  | nil => simp
  | cons y ys ih =>
    obtain ⟨hy, hys⟩ := List.nodup_cons.mp hl
    obtain ⟨ihn, ihm⟩ := ih hys
    cases hfy : f y with
    | none =>
      rw [List.filterMap_cons, hfy]
      exact ⟨ihn, fun x hx => List.mem_cons_of_mem _ (ihm x hx)⟩
    | some p =>
      rw [List.filterMap_cons, hfy]
      rw [List.map_cons, List.nodup_cons]
      refine ⟨⟨?_, ihn⟩, ?_⟩
      · intro hp
        exact hy ((hf y p hfy) ▸ ihm _ hp)
      · intro x hx
        rcases List.mem_cons.mp hx with rfl | hx
        · exact (hf y p hfy) ▸ List.mem_cons_self _ _
        · exact List.mem_cons_of_mem _ (ihm x hx)

/-- C6: on two object states, `getStateChanges` contains `(k, from, to)`
exactly when `k` lies in the union of the two key sets, the two property
reads differ under the shallow equality comparison, and `from`/`to` are
precisely those two (whole, undissected) property values — so keys with
equal values produce no record, a key missing on one side diffs against
`undefined`, no key is reported twice, and no recursive diffing occurs;
moreover `trackStateChange` submits exactly this diff under the `changes`
key of its `debug`-level entry's payload. -/
theorem state_diff_characterization (fs gs : List (String × JSVal)) (k : String)
    (f t : JSVal) (st : LoggerState) (comp action : String) (ctx : Option JSVal)
    (now : Nat) :
    ((k, f, t) ∈ DebugLogger.getStateChanges (jobj fs) (jobj gs)
      ↔ ((k ∈ jsKeys (jobj fs) ∨ k ∈ jsKeys (jobj gs))
        ∧ jsGet (jobj fs) k ≠ jsGet (jobj gs) k
        ∧ f = jsGet (jobj fs) k ∧ t = jsGet (jobj gs) k))
    ∧ ((DebugLogger.getStateChanges (jobj fs) (jobj gs)).map Prod.fst).Nodup
    ∧ DebugLogger.trackStateChange st comp action (jobj fs) (jobj gs) ctx now
        = DebugLogger.leveledCall st "debug" "state" "change"
            (comp ++ " state changed via " ++ action)
            (some (jobj [("oldState", jobj fs), ("newState", jobj gs),
              ("changes", DebugLogger.changesToJS
                (DebugLogger.getStateChanges (jobj fs) (jobj gs)))])) ctx now := by
  refine ⟨?_, ?_, rfl⟩
  · rw [DebugLogger.getStateChanges]
    rw [if_neg (by simp [jobj, jsFalsy])]
    rw [List.mem_filterMap]
    constructor
    · rintro ⟨key, hk, hf⟩
      by_cases hne : jsGet (jobj fs) key ≠ jsGet (jobj gs) key
      · rw [if_pos hne] at hf
        obtain ⟨rfl, rfl, rfl⟩ := Prod.mk.injEq .. ▸ Option.some.inj hf
        rw [mem_dedupFirst, List.mem_append] at hk
        exact ⟨hk, hne, rfl, rfl⟩
      · rw [if_neg hne] at hf
        cases hf
    · rintro ⟨hk, hne, rfl, rfl⟩
      refine ⟨k, ?_, if_pos hne⟩
      rw [mem_dedupFirst, List.mem_append]
      exact hk
  · rw [DebugLogger.getStateChanges]
    rw [if_neg (by simp [jobj, jsFalsy])]
    refine (map_fst_filterMap_keylike _ ?_ _ (nodup_dedupFirst _)).1
    intro a p h
    by_cases hne : jsGet (jobj fs) a ≠ jsGet (jobj gs) a
    · rw [if_pos hne] at h
      cases h
      rfl
    · rw [if_neg hne] at h
      cases h

/-- C9: when either state argument is `null` or `undefined`,
`getStateChanges` reports no keys at all — even against a non-empty
object on the other side — and `trackStateChange` still performs its
ordinary `debug`-level submission, carrying an empty `changes` record
(the model is a total function, so no exception is possible). -/
theorem nullish_state_diff_empty (bad other : JSVal)
    (hbad : bad = JSVal.null ∨ bad = JSVal.undefined) (st : LoggerState)
    (comp action : String) (ctx : Option JSVal) (now : Nat) :
    DebugLogger.getStateChanges bad other = []
    ∧ DebugLogger.getStateChanges other bad = []
    ∧ DebugLogger.trackStateChange st comp action bad other ctx now
        = DebugLogger.leveledCall st "debug" "state" "change"
            (comp ++ " state changed via " ++ action)
            (some (jobj [("oldState", bad), ("newState", other), ("changes", jobj [])]))
            ctx now := by
  have h1 : DebugLogger.getStateChanges bad other = [] := by
    rcases hbad with rfl | rfl <;> rw [DebugLogger.getStateChanges, if_pos (by simp [jsFalsy])]
  have h2 : DebugLogger.getStateChanges other bad = [] := by
    rcases hbad with rfl | rfl <;> rw [DebugLogger.getStateChanges, if_pos (by simp [jsFalsy])]
  refine ⟨h1, h2, ?_⟩
  rw [DebugLogger.trackStateChange, h1]
  rfl

/-- Witness for C9: diffing `null` against a non-empty object. -/
theorem nullish_state_diff_empty_witness :
    (JSVal.null = JSVal.null ∨ JSVal.null = JSVal.undefined)
    ∧ (DebugLogger.getStateChanges JSVal.null (jobj [("a", JSVal.num 1)]) = []
      ∧ DebugLogger.getStateChanges (jobj [("a", JSVal.num 1)]) JSVal.null = []
      ∧ DebugLogger.trackStateChange wDefaultState "c" "a" JSVal.null
          (jobj [("a", JSVal.num 1)]) none 3
          = DebugLogger.leveledCall wDefaultState "debug" "state" "change"
              ("c" ++ " state changed via " ++ "a")
              (some (jobj [("oldState", JSVal.null),
                ("newState", jobj [("a", JSVal.num 1)]), ("changes", jobj [])]))
              none 3) :=
  ⟨Or.inl rfl,
    nullish_state_diff_empty JSVal.null (jobj [("a", JSVal.num 1)]) (Or.inl rfl)
      wDefaultState "c" "a" none 3⟩

theorem shouldLog_invalid_level (cfg : DebugConfig) (hs : cfg.level ∉ levels)
    (lvl : String) (hlvl : lvl ∈ levels) : DebugLogger.shouldLog cfg lvl = false := by
  rw [DebugLogger.shouldLog]
  cases he : cfg.enabled
  · simp
  · simp [jsIndexOf_of_not_mem _ hs, jsIndexOf_of_mem _ hlvl]
    omega


/-- C10: constructing the logger in a Node environment whose
`DIANOIA_DEBUG_LEVEL` holds a string outside the five levels installs that
string unvalidated while leaving `enabled` true; `shouldLog` then rejects
every one of the five entry levels (its `indexOf` of the configured level
is -1), so even the synthetic init entry is dropped, every leveled call
leaves the state unchanged, and no console output is produced.  The
environment value must be truthy (non-empty) to pass the source's
`else if (process.env.DIANOIA_DEBUG_LEVEL)` guard; an empty string is
ignored and the level stays at its default. -/
theorem invalid_level_silences (s : String) (hs : s ∉ levels) (hne : s ≠ "") (t0 : Nat)
    (lvl : String) (hlvl : lvl ∈ levels) (comp action msg : String)
    (data ctx : Option JSVal) (now : Nat) :
    (DebugLogger.new {} true false { dianoiaDebug := none, dianoiaDebugLevel := some s }
        none t0)
      = ({ config := { defaultConfig with level := s } }, [])
    ∧ ({ config := { defaultConfig with level := s } } : LoggerState).config.enabled = true
    ∧ DebugLogger.shouldLog ({ defaultConfig with level := s }) lvl = false
    ∧ DebugLogger.leveledCall { config := { defaultConfig with level := s } }
        lvl comp action msg data ctx now
        = ({ config := { defaultConfig with level := s } }, []) := by
  have hdeb : ("debug" : String) ∈ levels := by decide
  have hsl : DebugLogger.shouldLog ({ defaultConfig with level := s }) "debug" = false :=
    shouldLog_invalid_level _ hs _ hdeb
  have hsl2 : DebugLogger.shouldLog ({ defaultConfig with level := s }) lvl = false :=
    shouldLog_invalid_level _ hs _ hlvl
  have hstep : DebugLogger.new {} true false
      { dianoiaDebug := none, dianoiaDebugLevel := some s } none t0
      = DebugLogger.log { config := { defaultConfig with level := s } } "system" "debug_init"
          "Debug system initialized"
          (some (jobj [("config", configToJS { defaultConfig with level := s }),
            ("environment", .str "node"), ("timestamp", .str (isoTimestamp t0))]))
          none t0 := by
    rw [DebugLogger.new, DebugLogger.initializeDebugMode]
    simp [hne, mergeConfig, defaultConfig]
  have hlog : DebugLogger.log { config := { defaultConfig with level := s } } "system"
      "debug_init" "Debug system initialized"
      (some (jobj [("config", configToJS { defaultConfig with level := s }),
        ("environment", .str "node"), ("timestamp", .str (isoTimestamp t0))]))
      none t0
      = ({ config := { defaultConfig with level := s } }, []) := by
    rw [DebugLogger.log, DebugLogger.debug, outputLog_eq]
    split
    · next hcond => exact (Bool.false_ne_true (hsl.symm.trans hcond)).elim
    · rfl
  refine ⟨hstep.trans hlog, rfl, hsl2, ?_⟩
  rw [DebugLogger.leveledCall, outputLog_eq]
  split
  · next hcond => exact (Bool.false_ne_true (hsl2.symm.trans hcond)).elim
  · rfl

/-- Witness for C10 with the unvalidated level string `verbose`. -/
theorem invalid_level_silences_witness :
    "verbose" ∉ levels ∧ "verbose" ≠ "" ∧ "info" ∈ levels
    ∧ ((DebugLogger.new {} true false
          { dianoiaDebug := none, dianoiaDebugLevel := some "verbose" } none 0)
        = ({ config := { defaultConfig with level := "verbose" } }, [])
      ∧ ({ config := { defaultConfig with level := "verbose" } } : LoggerState).config.enabled
          = true
      ∧ DebugLogger.shouldLog ({ defaultConfig with level := "verbose" }) "info" = false
      ∧ DebugLogger.leveledCall { config := { defaultConfig with level := "verbose" } }
          "info" "c" "a" "m" none none 5
          = ({ config := { defaultConfig with level := "verbose" } }, [])) :=
  ⟨by decide, by decide, by decide,
    invalid_level_silences "verbose" (by decide) (by decide) 0 "info" (by decide) "c" "a" "m"
      none none 5⟩

theorem mapGet_mapSet_self (ms : List (String × PerformanceMetric)) (k : String)
    (v : PerformanceMetric) : mapGet (mapSet ms k v) k = some v := by
  induction ms with
  | nil => simp [mapSet, mapGet, List.find?]
  | cons p rest ih =>
    obtain ⟨k', v'⟩ := p
    rw [mapSet]
    split
    · simp [mapGet, List.find?]
    · next hne =>
      rw [mapGet, List.find?]
      have : (k' == k) = false := by simpa using hne
      rw [this]
      exact ih

theorem mapSet_fresh (ms : List (String × PerformanceMetric)) (k : String)
    (v : PerformanceMetric) (h : mapGet ms k = none) : mapSet ms k v = ms ++ [(k, v)] := by
  induction ms with
  | nil => rfl
  | cons p rest ih =>
    obtain ⟨k', v'⟩ := p
    rw [mapGet, List.find?] at h
    cases hk : (k' == k) with
    | true =>
      rw [hk] at h
      cases h
    | false =>
      rw [hk] at h
      rw [mapSet, if_neg (by simpa using hk), List.cons_append]
      rw [ih h]

theorem mapSet_append_self (ms : List (String × PerformanceMetric)) (k : String)
    (v w : PerformanceMetric) (h : mapGet ms k = none) :
    mapSet (ms ++ [(k, v)]) k w = ms ++ [(k, w)] := by
  induction ms with
  | nil => simp [mapSet]
  | cons p rest ih =>
    obtain ⟨k', v'⟩ := p
    rw [mapGet, List.find?] at h
    cases hk : (k' == k) with
    | true =>
      rw [hk] at h
      cases h
    | false =>
      rw [hk] at h
      rw [List.cons_append, mapSet, if_neg (by simpa using hk), ih h, List.cons_append]

theorem mapGet_append_self (ms : List (String × PerformanceMetric)) (k : String)
    (v : PerformanceMetric) (h : mapGet ms k = none) :
    mapGet (ms ++ [(k, v)]) k = some v := by
  induction ms with
  | nil => simp [mapGet, List.find?]
  | cons p rest ih =>
    obtain ⟨k', v'⟩ := p
    rw [mapGet, List.find?] at h
    cases hk : (k' == k) with
    | true =>
      rw [hk] at h
      cases h
    | false =>
      rw [hk] at h
      rw [List.cons_append, mapGet, List.find?, hk]
      exact ih h

theorem mapDelete_append_self (ms : List (String × PerformanceMetric)) (k : String)
    (v : PerformanceMetric) (h : mapGet ms k = none) :
    mapDelete (ms ++ [(k, v)]) k = ms := by
  induction ms with
  | nil => simp [mapDelete]
  | cons p rest ih =>
    obtain ⟨k', v'⟩ := p
    rw [mapGet, List.find?] at h
    cases hk : (k' == k) with
    | true =>
      rw [hk] at h
      cases h
    | false =>
      rw [hk] at h
      rw [List.cons_append, mapDelete, if_neg (by simpa using hk), ih h]

theorem timerId_ne_empty (op : String) (t : Nat) (r : String) :
    op ++ "_" ++ toString t ++ "_" ++ r ≠ "" := by
  intro h
  have hlen := congrArg String.length h
  simp [String.length_append] at hlen
  exact (by decide : ¬(("_" : String).length = 0)) hlen.1.2

theorem trace_eq_leveledCall (st : LoggerState) (comp action msg : String)
    (data ctx : Option JSVal) (now : Nat) :
    DebugLogger.trace st comp action msg data ctx now
      = DebugLogger.leveledCall st "trace" comp action msg data ctx now := rfl

theorem info_eq_leveledCall (st : LoggerState) (comp action msg : String)
    (data ctx : Option JSVal) (now : Nat) :
    DebugLogger.info st comp action msg data ctx now
      = DebugLogger.leveledCall st "info" comp action msg data ctx now := rfl

theorem warn_eq_leveledCall (st : LoggerState) (comp action msg : String)
    (data ctx : Option JSVal) (now : Nat) :
    DebugLogger.warn st comp action msg data ctx now
      = DebugLogger.leveledCall st "warn" comp action msg data ctx now := rfl

theorem leveledState_eq (st : LoggerState) (lvl comp action msg : String)
    (data ctx : Option JSVal) (now : Nat) :
    (DebugLogger.leveledCall st lvl comp action msg data ctx now).1
      = { st with logBuffer := (if DebugLogger.shouldLog st.config lvl
          then bufferPush st.logBuffer
            (DebugLogger.createLogEntry st.config lvl comp action msg data ctx now)
          else st.logBuffer) } := by
  rw [DebugLogger.leveledCall, outputLog_eq]
  rw [show (DebugLogger.createLogEntry st.config lvl comp action msg data ctx now).level
    = lvl from rfl]
  split
  · rfl
  · cases st
    rfl

theorem startTimer_enabled (st : LoggerState) (op : String) (md : Option JSVal)
    (t : Nat) (rand : String)
    (hen : st.config.enabled = true) (hperf : st.config.includePerformance = true) :
    DebugLogger.startTimer st op md t rand
      = (let tid := op ++ "_" ++ toString t ++ "_" ++ rand
         let metric : PerformanceMetric := { operation := op, startTime := t, metadata := md }
         let stA := { st with performanceMetrics := mapSet st.performanceMetrics tid metric }
         let r0 := DebugLogger.trace stA "performance" "timer_start"
           ("Started timer for: " ++ op)
           (some (jobj [("timerId", .str tid), ("metadata", md.getD .undefined)])) none t
         (r0.1, r0.2, tid)) := by
  rw [DebugLogger.startTimer, if_neg (by simp [hen, hperf])]

theorem endTimer_found (Z : LoggerState) (tid : String) (extra : Option JSVal) (t : Nat)
    (m : PerformanceMetric)
    (hen : Z.config.enabled = true) (hperf : Z.config.includePerformance = true)
    (htid : tid ≠ "") (hget : mapGet Z.performanceMetrics tid = some m) :
    DebugLogger.endTimer Z tid extra t
      = (let duration : Int := (t : Int) - (m.startTime : Int)
         let m' := { m with endTime := some t, duration := some duration }
         let Z' := { Z with performanceMetrics := mapSet Z.performanceMetrics tid m' }
         let baseData := [("duration", JSVal.str (toFixed2 duration ++ "ms")),
           ("operation", JSVal.str m.operation), ("metadata", m.metadata.getD .undefined)]
         let dataFields := match extra with
           | some (.obj fs) => objSpread baseData fs.toList
           | _ => baseData
         let r := DebugLogger.info Z' "performance" "timer_end"
           ("Completed: " ++ m.operation) (some (jobj dataFields)) none t
         ({ r.1 with performanceMetrics := mapDelete r.1.performanceMetrics tid }, r.2)) := by
  rw [DebugLogger.endTimer, if_neg (by simp [hen, hperf, htid]), hget]

theorem endTimer_missing (Z : LoggerState) (tid : String) (extra : Option JSVal) (t : Nat)
    (hen : Z.config.enabled = true) (hperf : Z.config.includePerformance = true)
    (htid : tid ≠ "") (hget : mapGet Z.performanceMetrics tid = none) :
    DebugLogger.endTimer Z tid extra t
      = DebugLogger.warn Z "performance" "timer_end" ("Timer not found: " ++ tid)
          none none t := by
  rw [DebugLogger.endTimer, if_neg (by simp [hen, hperf, htid]), hget]

theorem info_config (st : LoggerState) (c a m : String) (d ctx : Option JSVal) (now : Nat) :
    (DebugLogger.info st c a m d ctx now).1.config = st.config :=
  outputLog_config _ _

theorem info_metrics (st : LoggerState) (c a m : String) (d ctx : Option JSVal) (now : Nat) :
    (DebugLogger.info st c a m d ctx now).1.performanceMetrics = st.performanceMetrics :=
  outputLog_metrics _ _

theorem info_buffer (st : LoggerState) (c a m : String) (d ctx : Option JSVal) (now : Nat) :
    (DebugLogger.info st c a m d ctx now).1.logBuffer
      = (if DebugLogger.shouldLog st.config "info"
        then bufferPush st.logBuffer (DebugLogger.createLogEntry st.config "info" c a m d ctx now)
        else st.logBuffer) := by
  rw [info_eq_leveledCall, leveledState_eq]

theorem warn_config (st : LoggerState) (c a m : String) (d ctx : Option JSVal) (now : Nat) :
    (DebugLogger.warn st c a m d ctx now).1.config = st.config :=
  outputLog_config _ _

theorem warn_metrics (st : LoggerState) (c a m : String) (d ctx : Option JSVal) (now : Nat) :
    (DebugLogger.warn st c a m d ctx now).1.performanceMetrics = st.performanceMetrics :=
  outputLog_metrics _ _

theorem warn_buffer (st : LoggerState) (c a m : String) (d ctx : Option JSVal) (now : Nat) :
    (DebugLogger.warn st c a m d ctx now).1.logBuffer
      = (if DebugLogger.shouldLog st.config "warn"
        then bufferPush st.logBuffer (DebugLogger.createLogEntry st.config "warn" c a m d ctx now)
        else st.logBuffer) := by
  rw [warn_eq_leveledCall, leveledState_eq]

theorem trace_config (st : LoggerState) (c a m : String) (d ctx : Option JSVal) (now : Nat) :
    (DebugLogger.trace st c a m d ctx now).1.config = st.config :=
  outputLog_config _ _

theorem trace_metrics (st : LoggerState) (c a m : String) (d ctx : Option JSVal) (now : Nat) :
    (DebugLogger.trace st c a m d ctx now).1.performanceMetrics = st.performanceMetrics :=
  outputLog_metrics _ _

theorem trace_buffer (st : LoggerState) (c a m : String) (d ctx : Option JSVal) (now : Nat) :
    (DebugLogger.trace st c a m d ctx now).1.logBuffer
      = (if DebugLogger.shouldLog st.config "trace"
        then bufferPush st.logBuffer (DebugLogger.createLogEntry st.config "trace" c a m d ctx now)
        else st.logBuffer) := by
  rw [trace_eq_leveledCall, leveledState_eq]

theorem startTimer_components (st : LoggerState) (op : String) (md : Option JSVal)
    (t : Nat) (rand : String)
    (hen : st.config.enabled = true) (hperf : st.config.includePerformance = true) :
    (DebugLogger.startTimer st op md t rand).2.2 = op ++ "_" ++ toString t ++ "_" ++ rand
    ∧ (DebugLogger.startTimer st op md t rand).1.config = st.config
    ∧ (DebugLogger.startTimer st op md t rand).1.performanceMetrics
        = mapSet st.performanceMetrics (op ++ "_" ++ toString t ++ "_" ++ rand)
            { operation := op, startTime := t, metadata := md }
    ∧ (DebugLogger.startTimer st op md t rand).1.logBuffer
        = (if DebugLogger.shouldLog st.config "trace"
          then bufferPush st.logBuffer (DebugLogger.createLogEntry st.config "trace"
            "performance" "timer_start" ("Started timer for: " ++ op)
            (some (jobj [("timerId", .str (op ++ "_" ++ toString t ++ "_" ++ rand)),
              ("metadata", md.getD .undefined)])) none t)
          else st.logBuffer) := by
  rw [startTimer_enabled st op md t rand hen hperf]
  exact ⟨rfl, trace_config _ _ _ _ _ _ _, trace_metrics _ _ _ _ _ _ _,
    trace_buffer _ _ _ _ _ _ _⟩

theorem endTimer_found_components (Z : LoggerState) (tid : String) (extra : Option JSVal)
    (t : Nat) (m : PerformanceMetric)
    (hen : Z.config.enabled = true) (hperf : Z.config.includePerformance = true)
    (htid : ¬(tid = "")) (hget : mapGet Z.performanceMetrics tid = some m) :
    (DebugLogger.endTimer Z tid extra t).1.config = Z.config
    ∧ (DebugLogger.endTimer Z tid extra t).1.performanceMetrics
        = mapDelete (mapSet Z.performanceMetrics tid
            ({ m with endTime := some t, duration := some ((t : Int) - (m.startTime : Int)) }))
            tid
    ∧ (DebugLogger.endTimer Z tid extra t).1.logBuffer
        = (if DebugLogger.shouldLog Z.config "info"
          then bufferPush Z.logBuffer (DebugLogger.createLogEntry Z.config "info"
            "performance" "timer_end" ("Completed: " ++ m.operation)
            (some (jobj (match extra with
              | some (.obj fs) => objSpread
                  [("duration", JSVal.str (toFixed2 ((t : Int) - (m.startTime : Int)) ++ "ms")),
                    ("operation", JSVal.str m.operation),
                    ("metadata", m.metadata.getD .undefined)] fs.toList
              | _ => [("duration", JSVal.str (toFixed2 ((t : Int) - (m.startTime : Int)) ++ "ms")),
                  ("operation", JSVal.str m.operation),
                  ("metadata", m.metadata.getD .undefined)]))) none t)
          else Z.logBuffer) := by
  rw [endTimer_found Z tid extra t m hen hperf htid hget]
  exact ⟨info_config _ _ _ _ _ _ _,
    congrArg (fun ms => mapDelete ms tid) (info_metrics _ _ _ _ _ _ _),
    info_buffer _ _ _ _ _ _ _⟩

/-- C3: with the logger enabled and performance tracking on, `startTimer`
returns the generated non-empty identifier and stores the metric; a
following `endTimer` at a later clock reports a non-negative duration
equal to the elapsed time (as the formatted `duration` field of its
`info` completion entry, retained whenever the configuration admits
`info`), restores the timer mapping to its pre-`startTimer` contents (the
metric is removed), and a second `endTimer` with the same identifier
merely submits a `warn`-level "Timer not found" entry — no exception, no
metric reuse, and no change to the timer mapping. -/
theorem timer_round_trip (st : LoggerState) (op : String) (md : Option JSVal)
    (t1 t2 t3 : Nat) (rand : String)
    (hen : st.config.enabled = true) (hperf : st.config.includePerformance = true)
    (hord : t1 ≤ t2)
    (hfresh : mapGet st.performanceMetrics (op ++ "_" ++ toString t1 ++ "_" ++ rand) = none) :
    (DebugLogger.startTimer st op md t1 rand).2.2 = op ++ "_" ++ toString t1 ++ "_" ++ rand
    ∧ (DebugLogger.startTimer st op md t1 rand).2.2 ≠ ""
    ∧ mapGet (DebugLogger.startTimer st op md t1 rand).1.performanceMetrics
        (op ++ "_" ++ toString t1 ++ "_" ++ rand)
        = some { operation := op, startTime := t1, metadata := md }
    ∧ 0 ≤ (t2 : Int) - (t1 : Int)
    ∧ (DebugLogger.endTimer (DebugLogger.startTimer st op md t1 rand).1
        (op ++ "_" ++ toString t1 ++ "_" ++ rand) none t2).1.logBuffer
        = (if DebugLogger.shouldLog st.config "info"
          then bufferPush (DebugLogger.startTimer st op md t1 rand).1.logBuffer
            (DebugLogger.createLogEntry st.config "info" "performance" "timer_end"
              ("Completed: " ++ op)
              (some (jobj [("duration",
                  JSVal.str (toFixed2 ((t2 : Int) - (t1 : Int)) ++ "ms")),
                ("operation", JSVal.str op), ("metadata", md.getD .undefined)])) none t2)
          else (DebugLogger.startTimer st op md t1 rand).1.logBuffer)
    ∧ mapGet (DebugLogger.endTimer (DebugLogger.startTimer st op md t1 rand).1
        (op ++ "_" ++ toString t1 ++ "_" ++ rand) none t2).1.performanceMetrics
        (op ++ "_" ++ toString t1 ++ "_" ++ rand) = none
    ∧ (DebugLogger.endTimer (DebugLogger.startTimer st op md t1 rand).1
        (op ++ "_" ++ toString t1 ++ "_" ++ rand) none t2).1.performanceMetrics
        = st.performanceMetrics
    ∧ (DebugLogger.endTimer (DebugLogger.endTimer (DebugLogger.startTimer st op md t1 rand).1
        (op ++ "_" ++ toString t1 ++ "_" ++ rand) none t2).1
        (op ++ "_" ++ toString t1 ++ "_" ++ rand) none t3).1.performanceMetrics
        = st.performanceMetrics
    ∧ (DebugLogger.endTimer (DebugLogger.endTimer (DebugLogger.startTimer st op md t1 rand).1
        (op ++ "_" ++ toString t1 ++ "_" ++ rand) none t2).1
        (op ++ "_" ++ toString t1 ++ "_" ++ rand) none t3).1.logBuffer
        = (if DebugLogger.shouldLog st.config "warn"
          then bufferPush (DebugLogger.endTimer (DebugLogger.startTimer st op md t1 rand).1
            (op ++ "_" ++ toString t1 ++ "_" ++ rand) none t2).1.logBuffer
            (DebugLogger.createLogEntry st.config "warn" "performance" "timer_end"
              ("Timer not found: " ++ (op ++ "_" ++ toString t1 ++ "_" ++ rand)) none none t3)
          else (DebugLogger.endTimer (DebugLogger.startTimer st op md t1 rand).1
            (op ++ "_" ++ toString t1 ++ "_" ++ rand) none t2).1.logBuffer) := by
  have htid := timerId_ne_empty op t1 rand
  obtain ⟨hrid, hcfg1, hms1, hbuf1⟩ := startTimer_components st op md t1 rand hen hperf
  have hms1' : (DebugLogger.startTimer st op md t1 rand).1.performanceMetrics
      = st.performanceMetrics ++ [(op ++ "_" ++ toString t1 ++ "_" ++ rand,
        { operation := op, startTime := t1, metadata := md })] :=
    hms1.trans (mapSet_fresh _ _ _ hfresh)
  have hget1 : mapGet (DebugLogger.startTimer st op md t1 rand).1.performanceMetrics
      (op ++ "_" ++ toString t1 ++ "_" ++ rand)
      = some { operation := op, startTime := t1, metadata := md } := by
    rw [hms1']
    exact mapGet_append_self _ _ _ hfresh
  have hen1 : (DebugLogger.startTimer st op md t1 rand).1.config.enabled = true := by
    rw [hcfg1]
    exact hen
  have hperf1 : (DebugLogger.startTimer st op md t1 rand).1.config.includePerformance
      = true := by
    rw [hcfg1]
    exact hperf
  obtain ⟨hcfg2, hms2, hbuf2⟩ := endTimer_found_components
    (DebugLogger.startTimer st op md t1 rand).1 (op ++ "_" ++ toString t1 ++ "_" ++ rand)
    none t2 { operation := op, startTime := t1, metadata := md } hen1 hperf1 htid hget1
  have hms2' : (DebugLogger.endTimer (DebugLogger.startTimer st op md t1 rand).1
      (op ++ "_" ++ toString t1 ++ "_" ++ rand) none t2).1.performanceMetrics
      = st.performanceMetrics := by
    rw [hms2, hms1', mapSet_append_self _ _ _ _ hfresh, mapDelete_append_self _ _ _ hfresh]
  have hen2 : (DebugLogger.endTimer (DebugLogger.startTimer st op md t1 rand).1
      (op ++ "_" ++ toString t1 ++ "_" ++ rand) none t2).1.config.enabled = true := by
    rw [hcfg2, hcfg1]
    exact hen
  have hperf2 : (DebugLogger.endTimer (DebugLogger.startTimer st op md t1 rand).1
      (op ++ "_" ++ toString t1 ++ "_" ++ rand) none t2).1.config.includePerformance
      = true := by
    rw [hcfg2, hcfg1]
    exact hperf
  have hget2 : mapGet (DebugLogger.endTimer (DebugLogger.startTimer st op md t1 rand).1
      (op ++ "_" ++ toString t1 ++ "_" ++ rand) none t2).1.performanceMetrics
      (op ++ "_" ++ toString t1 ++ "_" ++ rand) = none := by
    rw [hms2']
    exact hfresh
  have hmiss := endTimer_missing (DebugLogger.endTimer
      (DebugLogger.startTimer st op md t1 rand).1
      (op ++ "_" ++ toString t1 ++ "_" ++ rand) none t2).1
    (op ++ "_" ++ toString t1 ++ "_" ++ rand) none t3 hen2 hperf2 htid hget2
  refine ⟨hrid, by rw [hrid]; exact htid, hget1, by omega, ?_, hget2, hms2', ?_, ?_⟩
  · rw [hbuf2, hcfg1]
  · rw [hmiss, warn_metrics, hms2']
  · rw [hmiss, warn_buffer, hcfg2, hcfg1]

/-- Witness for C3: timing operation `fetch` on the default logger,
starting at clock 100 and ending at 105, with a stale retry at 107. -/
theorem timer_round_trip_witness :
    wDefaultState.config.enabled = true
    ∧ wDefaultState.config.includePerformance = true
    ∧ (100 : Nat) ≤ 105
    ∧ mapGet wDefaultState.performanceMetrics ("fetch" ++ "_" ++ toString 100 ++ "_" ++ "r9")
        = none
    ∧ ((DebugLogger.startTimer wDefaultState "fetch" none 100 "r9").2.2
        = "fetch" ++ "_" ++ toString 100 ++ "_" ++ "r9"
      ∧ (DebugLogger.startTimer wDefaultState "fetch" none 100 "r9").2.2 ≠ ""
      ∧ mapGet (DebugLogger.startTimer wDefaultState "fetch" none 100 "r9").1.performanceMetrics
          ("fetch" ++ "_" ++ toString 100 ++ "_" ++ "r9")
          = some { operation := "fetch", startTime := 100, metadata := none }
      ∧ 0 ≤ (105 : Int) - (100 : Int)
      ∧ (DebugLogger.endTimer (DebugLogger.startTimer wDefaultState "fetch" none 100 "r9").1
          ("fetch" ++ "_" ++ toString 100 ++ "_" ++ "r9") none 105).1.logBuffer
          = (if DebugLogger.shouldLog wDefaultState.config "info"
            then bufferPush
              (DebugLogger.startTimer wDefaultState "fetch" none 100 "r9").1.logBuffer
              (DebugLogger.createLogEntry wDefaultState.config "info" "performance" "timer_end"
                ("Completed: " ++ "fetch")
                (some (jobj [("duration",
                    JSVal.str (toFixed2 ((105 : Int) - (100 : Int)) ++ "ms")),
                  ("operation", JSVal.str "fetch"),
                  ("metadata", (none : Option JSVal).getD .undefined)])) none 105)
            else (DebugLogger.startTimer wDefaultState "fetch" none 100 "r9").1.logBuffer)
      ∧ mapGet (DebugLogger.endTimer
          (DebugLogger.startTimer wDefaultState "fetch" none 100 "r9").1
          ("fetch" ++ "_" ++ toString 100 ++ "_" ++ "r9") none 105).1.performanceMetrics
          ("fetch" ++ "_" ++ toString 100 ++ "_" ++ "r9") = none
      ∧ (DebugLogger.endTimer (DebugLogger.startTimer wDefaultState "fetch" none 100 "r9").1
          ("fetch" ++ "_" ++ toString 100 ++ "_" ++ "r9") none 105).1.performanceMetrics
          = wDefaultState.performanceMetrics
      ∧ (DebugLogger.endTimer (DebugLogger.endTimer
          (DebugLogger.startTimer wDefaultState "fetch" none 100 "r9").1
          ("fetch" ++ "_" ++ toString 100 ++ "_" ++ "r9") none 105).1
          ("fetch" ++ "_" ++ toString 100 ++ "_" ++ "r9") none 107).1.performanceMetrics
          = wDefaultState.performanceMetrics
      ∧ (DebugLogger.endTimer (DebugLogger.endTimer
          (DebugLogger.startTimer wDefaultState "fetch" none 100 "r9").1
          ("fetch" ++ "_" ++ toString 100 ++ "_" ++ "r9") none 105).1
          ("fetch" ++ "_" ++ toString 100 ++ "_" ++ "r9") none 107).1.logBuffer
          = (if DebugLogger.shouldLog wDefaultState.config "warn"
            then bufferPush (DebugLogger.endTimer
              (DebugLogger.startTimer wDefaultState "fetch" none 100 "r9").1
              ("fetch" ++ "_" ++ toString 100 ++ "_" ++ "r9") none 105).1.logBuffer
              (DebugLogger.createLogEntry wDefaultState.config "warn" "performance" "timer_end"
                ("Timer not found: " ++ ("fetch" ++ "_" ++ toString 100 ++ "_" ++ "r9"))
                none none 107)
            else (DebugLogger.endTimer
              (DebugLogger.startTimer wDefaultState "fetch" none 100 "r9").1
              ("fetch" ++ "_" ++ toString 100 ++ "_" ++ "r9") none 105).1.logBuffer)) :=
  ⟨by decide, by decide, by decide, by decide,
    timer_round_trip wDefaultState "fetch" none 100 105 107 "r9" (by decide) (by decide)
      (by decide) (by decide)⟩

theorem encodeJSFields_cons_of_safe (k : String) (v : JSVal) (fs : JSFields)
    (h : v ≠ JSVal.undefined) :
    encodeJSFields (.cons k v fs) = (k, encodeJS v) :: encodeJSFields fs := by
  cases v <;> first
    | exact absurd rfl h
    | rfl

mutual
theorem decode_encodeJS : ∀ (v : JSVal), jsonSafe v = true → decodeJS (encodeJS v) = v
  | .undefined, h => by simp [jsonSafe] at h
  | .null, _ => rfl
  | .bool b, _ => rfl
  | .num n, _ => rfl
  | .str s, _ => rfl
  | .arr xs, h => by
    rw [encodeJS, decodeJS]
    rw [decode_encodeJSList xs (by simpa [jsonSafe] using h)]
  | .obj fs, h => by
    rw [encodeJS, decodeJS]
    rw [decode_encodeJSFields fs (by simpa [jsonSafe] using h)]
theorem decode_encodeJSList : ∀ (xs : JSList), jsonSafeList xs = true
    → decodeJSList (encodeJSList xs) = xs
  | .nil, _ => rfl
  | .cons x xs, h => by
    rw [jsonSafeList, Bool.and_eq_true] at h
    rw [encodeJSList, decodeJSList]
    rw [decode_encodeJS x h.1, decode_encodeJSList xs h.2]
theorem decode_encodeJSFields : ∀ (fs : JSFields), jsonSafeFields fs = true
    → decodeJSFields (encodeJSFields fs) = fs
  | .nil, _ => rfl
  | .cons k v fs, h => by
    rw [jsonSafeFields, Bool.and_eq_true] at h
    have hv : v ≠ JSVal.undefined := by
      intro hveq
      rw [hveq] at h
      simp [jsonSafe] at h
    rw [encodeJSFields_cons_of_safe k v fs hv, decodeJSFields]
    rw [decode_encodeJS v h.1, decode_encodeJSFields fs h.2]
end

theorem decode_encodePerf (p : PerfInfo) :
    DebugLogger.decodePerf (DebugLogger.encodePerf p) = some p := by
  obtain ⟨d, m⟩ := p
  cases d <;> cases m <;> rfl

theorem decode_encodeErr (e : ErrInfo) :
    DebugLogger.decodeErr (DebugLogger.encodeErr e) = some e := by
  obtain ⟨n, m, s⟩ := e
  cases s <;> rfl

theorem decode_encodeEntry (e : LogEntry) (h : entrySafe e = true) :
    DebugLogger.decodeEntry (DebugLogger.encodeEntry e) = some e := by
  obtain ⟨ts, lv, co, ac, me, da, pe, er, cx⟩ := e
  cases da <;> cases pe <;> cases er <;> cases cx <;>
    (try simp only [entrySafe, Bool.and_eq_true] at h) <;>
    simp [DebugLogger.encodeEntry, DebugLogger.decodeEntry, DebugLogger.jLookup,
      DebugLogger.decodeOpt, decode_encodePerf, decode_encodeErr, List.find?,
      decode_encodeJS, h]

theorem decode_encodeEntryList (l : List LogEntry) (h : l.all entrySafe = true) :
    DebugLogger.decodeEntryList (l.map DebugLogger.encodeEntry) = some l := by
  induction l with
  | nil => rfl
  | cons e rest ih =>
    rw [List.all_cons, Bool.and_eq_true] at h
    rw [List.map_cons, DebugLogger.decodeEntryList, decode_encodeEntry e h.1, ih h.2]

/-- Counterexample to C8 as stated: a reachable buffer (one
`trackStateChange` entry whose diff reports a key present only in the
new state, so its payload holds `changes.b.from = undefined` — the shape
of the spec's own example) for which parsing the exported dump does not
reproduce the stored entries: `JSON.stringify` drops the
`undefined`-valued key, so the parsed entry differs from the retained
one at that key. -/
theorem export_round_trip_cex :
    DebugLogger.decodeLogs (DebugLogger.exportLogs wBadExportState)
      ≠ some (DebugLogger.getLogs wBadExportState) := by
  decide

/-- C8 (amended): for every buffer whose entries carry JSON-representable
payloads (no `undefined` inside `data`/`context` — the spec's data model
calls payloads serialization-ready), parsing the serialized dump produced
by `exportLogs` recovers exactly the sequence of entries returned by
`getLogs` at the moment of export — same order, one record per retained
call, every field value equal.  For entries whose payloads hold an
`undefined`-valued key the round trip returns the entry with that key
omitted instead (see the counterexample above). -/
theorem export_round_trip (st : LoggerState) (h : st.logBuffer.all entrySafe = true) :
    DebugLogger.decodeLogs (DebugLogger.exportLogs st) = some (DebugLogger.getLogs st) := by
  rw [DebugLogger.exportLogs]
  rw [show DebugLogger.decodeLogs (Json.arr (st.logBuffer.map DebugLogger.encodeEntry))
    = DebugLogger.decodeEntryList (st.logBuffer.map DebugLogger.encodeEntry) from rfl]
  rw [DebugLogger.getLogs]
  exact decode_encodeEntryList _ h

/-- Witness for C8: a logger holding one `trackStateChange` entry with a
nested structured payload round-trips through export and parse. -/
theorem export_round_trip_witness :
    wExportState.logBuffer.all entrySafe = true
    ∧ DebugLogger.decodeLogs (DebugLogger.exportLogs wExportState)
        = some (DebugLogger.getLogs wExportState) :=
  ⟨by decide, export_round_trip wExportState (by decide)⟩
